import Mathlib

/-!
Verification of the genetic-algorithm computer-build optimizer

Shallow embedding of the core of the repository
(`models.py`, `algorithm/fitness/*`, `algorithm/operations/*`,
`algorithm/population/diversity.py`, `algorithm/utils/statistics.py`,
`algorithm/computer_generator.py`) together with theorems settling the
frozen claims about it.

Modelling conventions:
* Python numbers (`int`/`float`) are embedded as `ℚ`; Python float
  arithmetic is modelled exactly (no rounding).  Divisions that Python
  guards with a zero test are guarded identically here; an unguarded
  Lean `/` only appears where the source also divides unconditionally.
* Python objects become Lean structures; attribute assignment on a
  (deep-)copied object becomes a record update, which — exactly as in
  the source — does **not** re-run the `Computer.__init__` price
  computation.
* Calls to `random.random()` / `random.choice` / `random.sample` are
  modelled by explicit oracle arguments (a `Bool`, an element choice
  function, or a stream of offspring), so every theorem quantifies over
  all possible random outcomes.
* `Computer.estimated_performance` and the fields of `UserPreferences`
  not consulted by the embedded functions (`priority`,
  `brand_preferences`, …) are omitted: no claim mentions them and no
  embedded function reads them.
-/

/-- Embeds `CPU` from `models.py` (the fields read by the embedded code). -/
structure CPU where
  maker : String
  model : String
  performance : ℚ
  price : ℚ
  power_consumption : ℚ
  has_integrated_graphics : Bool
  integrated_graphics_power : ℚ
  socket_type : String
  deriving DecidableEq, Repr

/-- Embeds `GPU` from `models.py` (the fields read by the embedded code). -/
structure GPU where
  maker : String
  price : ℚ
  power_consumption : ℚ
  power : ℚ
  length_mm : ℚ
  deriving DecidableEq, Repr

/-- Embeds `RAM` from `models.py` (the fields read by the embedded code). -/
structure RAM where
  maker : String
  model : String
  capacity : ℚ
  frequency : ℚ
  type : String
  price : ℚ
  deriving DecidableEq, Repr

/-- Embeds `Storage` from `models.py` (the fields read by the embedded code). -/
structure Storage where
  maker : String
  model : String
  type : String
  capacity : ℚ
  price : ℚ
  deriving DecidableEq, Repr

/-- Embeds `Motherboard` from `models.py` (the fields read by the embedded code). -/
structure Motherboard where
  maker : String
  model : String
  price : ℚ
  power_consumption : ℚ
  max_ram_capacity : ℚ
  max_ram_frequency : ℚ
  ram_socket_type : String
  compatible_cpus : List String
  form_factor : String
  socket_type : String
  deriving DecidableEq, Repr

/-- Embeds `PSU` from `models.py` (the fields read by the embedded code). -/
structure PSU where
  maker : String
  model : String
  capacity : ℚ
  price : ℚ
  deriving DecidableEq, Repr

/-- Embeds `Cooling` from `models.py` (the fields read by the embedded code). -/
structure Cooling where
  maker : String
  model : String
  type : String
  cooling_capacity : ℚ
  price : ℚ
  height_mm : ℚ
  deriving DecidableEq, Repr

/-- Embeds `Case.cooling_support` from `models.py`: the Python dict holds an
optional `"max_air_cooler_height"` number and an optional
`"radiator_support"` list of sizes; `supports_cooling_type` only tests
key presence and `can_fit_all_components` reads the values with
`.get(…)` defaults. -/
structure CoolingSupport where
  max_air_cooler_height : Option ℚ
  radiator_support : Option (List ℚ)
  deriving DecidableEq, Repr

/-- Embeds `Case` from `models.py` (the fields read by the embedded code). -/
structure Case where
  maker : String
  model : String
  form_factors : List String
  max_gpu_length : ℚ
  cooling_support : CoolingSupport
  price : ℚ
  deriving DecidableEq, Repr

/-- Embeds `Motherboard.is_cpu_compatible` from `models.py`. -/
def Motherboard.is_cpu_compatible (mb : Motherboard) (cpu : CPU) : Bool :=
  let model_compatible := cpu.model ∈ mb.compatible_cpus
  let socket_compatible := cpu.socket_type = mb.socket_type
  model_compatible && socket_compatible

/-- Embeds `Motherboard.is_ram_compatible` from `models.py`. -/
def Motherboard.is_ram_compatible (mb : Motherboard) (ram : RAM) : Bool :=
  ram.type = mb.ram_socket_type
    && ram.frequency ≤ mb.max_ram_frequency
    && ram.capacity ≤ mb.max_ram_capacity

/-- Embeds `Case.supports_motherboard_form_factor` from `models.py`. -/
def Case.supports_motherboard_form_factor (c : Case) (form_factor : String) : Bool :=
  form_factor ∈ c.form_factors

/-- Embeds `Case.can_fit_gpu` from `models.py`. -/
def Case.can_fit_gpu (c : Case) (gpu : GPU) : Bool :=
  gpu.length_mm ≤ c.max_gpu_length

/-- Embeds `Case.supports_cooling_type` from `models.py`: key-presence tests on
the `cooling_support` dict. -/
def Case.supports_cooling_type (c : Case) (cooling_type : String) : Bool :=
  if cooling_type = "Air" then c.cooling_support.max_air_cooler_height.isSome
  else if cooling_type = "Liquid" then c.cooling_support.radiator_support.isSome
  else false

/-- Embeds `Computer` from `models.py`.  `price` and `fitness` are plain
mutable attributes in the source, hence plain fields here; `price` is
only ever written by `Computer.__init__` (see `Computer.make`). -/
structure Computer where
  cpu : CPU
  gpu : Option GPU
  ram : RAM
  storage : Storage
  motherboard : Motherboard
  psu : PSU
  cooling : Cooling
  case : Case
  additional_storages : List Storage
  price : ℚ
  fitness : ℚ
  deriving DecidableEq, Repr

/-- The price sum computed by `Computer.__init__` (`models.py` lines
599–610), as a function of the component slots currently held. -/
def Computer.componentPriceSum (c : Computer) : ℚ :=
  c.cpu.price
    + (match c.gpu with | some g => g.price | none => 0)
    + c.ram.price
    + c.storage.price
    + c.motherboard.price
    + c.psu.price
    + c.cooling.price
    + c.case.price
    + (c.additional_storages.map Storage.price).sum

/-- Embeds `Computer.__init__` from `models.py`: stores the slots and computes
`price` as the sum of the held components' prices (defaults:
`fitness = 0`, `additional_storages = []`). -/
def Computer.make (cpu : CPU) (gpu : Option GPU) (ram : RAM) (storage : Storage)
    (motherboard : Motherboard) (psu : PSU) (cooling : Cooling) (case : Case)
    (fitness : ℚ := 0) (additional_storages : List Storage := []) : Computer :=
  let c : Computer :=
    { cpu := cpu, gpu := gpu, ram := ram, storage := storage
      motherboard := motherboard, psu := psu, cooling := cooling, case := case
      additional_storages := additional_storages
      price := 0, fitness := fitness }
  { c with price := c.componentPriceSum }

/-- Embeds `Computer.__deepcopy__` from `models.py`: rebuilds the object
through `Computer.__init__` from (value-)copies of the components and
the current `fitness`, so `price` is recomputed from the slots while
every other field is carried over. -/
def Computer.deepcopy (c : Computer) : Computer :=
  Computer.make c.cpu c.gpu c.ram c.storage c.motherboard c.psu c.cooling c.case
    c.fitness c.additional_storages

/-- Embeds `Case.can_fit_all_components` from `models.py`. -/
def Case.can_fit_all_components (c : Case) (computer : Computer) : Bool :=
  if ¬ c.supports_motherboard_form_factor computer.motherboard.form_factor then false
  else if (match computer.gpu with
           | some g => !c.can_fit_gpu g
           | none => false) then false
  else if ¬ c.supports_cooling_type computer.cooling.type then false
  else if computer.cooling.type = "Air"
      && computer.cooling.height_mm > (c.cooling_support.max_air_cooler_height.getD 0) then false
  else if computer.cooling.type = "Liquid"
      && ¬ (computer.cooling.height_mm ∈ (c.cooling_support.radiator_support.getD [])) then false
  else true

/-- Embeds `Computer.is_bottleneck` from `models.py`. -/
def Computer.is_bottleneck (c : Computer) : Bool :=
  match c.gpu with
  | none => true
  | some g => |c.cpu.performance - g.power| ≤ 20

/-- Embeds `Computer.points_for_relation_quality_cpu` from `models.py`. -/
def Computer.points_for_relation_quality_cpu (c : Computer) : ℚ :=
  if c.cpu.price ≤ 0 then 0
  else min 10 ((c.cpu.performance / c.cpu.price) * 100)

/-- Embeds `Computer.points_for_relation_quality_gpu` from `models.py`. -/
def Computer.points_for_relation_quality_gpu (c : Computer) : ℚ :=
  match c.gpu with
  | none => 0
  | some g => if g.price ≤ 0 then 0 else min 10 ((g.power / g.price) * 650)

/-- Embeds `UserPreferences` from `models.py` (the fields read by the embedded
code: price bounds and usage category). -/
structure UserPreferences where
  min_price : ℚ
  max_price : ℚ
  usage : String
  deriving DecidableEq, Repr

/-! Section: `algorithm/fitness/usage_scorer.py` -/

namespace UsageScorer

/-- Embeds `UsageScorer.get_education_score` from `usage_scorer.py`. -/
def get_education_score (computer : Computer) : ℚ :=
  let score : ℚ := 0
  let score := if 30 ≤ computer.cpu.performance ∧ computer.cpu.performance ≤ 60 then score + 10
    else if computer.cpu.performance > 60 then score + 5 else score
  let score := if 8 < computer.ram.capacity ∧ computer.ram.capacity ≤ 16 then score + 8
    else if computer.ram.capacity > 16 then score + 5 else score
  let score := if computer.storage.type = "SSD" ∧ 128 < computer.storage.capacity ∧ computer.storage.capacity ≤ 500 then score + 7
    else if computer.storage.type = "SSD" ∧ computer.storage.capacity > 500 then score + 5 else score
  let score := if ((match computer.gpu with | some g => decide (g.power < 40) | none => false)
      || (computer.cpu.has_integrated_graphics && decide (computer.cpu.integrated_graphics_power < 60))) then score + 5 else score
  score

/-- Embeds `UsageScorer.get_web_navigation_score` from `usage_scorer.py`. -/
def get_web_navigation_score (computer : Computer) : ℚ :=
  let score : ℚ := 0
  let score := if 10 ≤ computer.cpu.performance ∧ computer.cpu.performance ≤ 30 then score + 8
    else if computer.cpu.performance > 30 then score + 4 else score
  let score := if computer.ram.capacity = 8 then score + 8
    else if computer.ram.capacity > 8 then score + 4 else score
  let score := if computer.storage.type = "SSD" ∧ computer.storage.capacity < 500 then score + 7
    else if computer.storage.type = "SSD" then score + 5 else score
  let score := if computer.gpu = none ∧ computer.cpu.integrated_graphics_power < 20 then score + 7
    else if computer.gpu = none then score + 5 else score + 2
  score

/-- Embeds `UsageScorer.get_video_editing_score` from `usage_scorer.py`. -/
def get_video_editing_score (computer : Computer) : ℚ :=
  let score : ℚ := 0
  let score := match computer.gpu with
    | some g => if g.power ≥ 60 then score + 10 else if g.power ≥ 30 then score + 7 else score + 3
    | none => score
  let score := if computer.cpu.performance ≥ 70 then score + 8
    else if computer.cpu.performance ≥ 50 then score + 5 else score
  let score := if computer.ram.capacity ≥ 32 then score + 7
    else if computer.ram.capacity ≥ 16 then score + 3 else score
  let score := if computer.storage.type = "SSD" ∧ computer.storage.capacity > 1000 then score + 5
    else if computer.storage.type = "SSD" then score + 2 else score
  score

/-- Embeds `UsageScorer.get_graphics_design_score` from `usage_scorer.py`. -/
def get_graphics_design_score (computer : Computer) : ℚ :=
  let score : ℚ := 0
  let score := match computer.gpu with
    | some g => if g.power ≥ 50 then score + 10 else if g.power ≥ 30 then score + 8 else score + 4
    | none => score
  let score := if computer.cpu.performance ≥ 60 then score + 7
    else if computer.cpu.performance ≥ 40 then score + 5 else score
  let score := if computer.ram.capacity ≥ 32 then score + 7
    else if computer.ram.capacity ≥ 16 then score + 5 else score
  let score := if computer.storage.type = "SSD" ∧ computer.storage.capacity > 1000 then score + 6
    else if computer.storage.type = "SSD" ∧ computer.storage.capacity > 500 then score + 4 else score
  score

/-- Embeds `UsageScorer.get_gaming_score` from `usage_scorer.py`. -/
def get_gaming_score (computer : Computer) : ℚ :=
  let score : ℚ := 0
  let score := match computer.gpu with
    | some g => if g.power ≥ 70 then score + 12 else if g.power ≥ 50 then score + 8 else score + 4
    | none => score
  let score := if computer.cpu.performance ≥ 70 then score + 7
    else if computer.cpu.performance ≥ 60 then score + 5 else score
  let score := if computer.ram.capacity ≥ 32 then score + 5
    else if computer.ram.capacity ≥ 16 then score + 4 else score
  let score := if computer.storage.type = "SSD" ∧ computer.storage.capacity ≥ 1000 then score + 6
    else if computer.storage.type = "SSD" then score + 4 else score
  score

/-- Embeds `UsageScorer.get_ofimatica_score` from `usage_scorer.py`. -/
def get_ofimatica_score (computer : Computer) : ℚ :=
  let score : ℚ := 0
  let score := if computer.cpu.performance ≥ 20 then score + 7
    else if computer.cpu.performance ≥ 10 then score + 5 else score
  let score := if computer.ram.capacity ≥ 16 then score + 7
    else if computer.ram.capacity ≥ 8 then score + 5 else score
  let score := if computer.storage.capacity > 1000 then score + 7
    else if computer.storage.capacity > 500 then score + 5 else score
  let score := match computer.gpu with
    | none => score + 5
    | some g => if g.power < 30 then score + 4 else score + 2
  score

/-- Embeds `UsageScorer.get_architecture_score` from `usage_scorer.py`. -/
def get_architecture_score (computer : Computer) : ℚ :=
  let score : ℚ := 0
  let score := match computer.gpu with
    | some g => if g.power ≥ 80 then score + 10 else if g.power ≥ 60 then score + 7 else score + 3
    | none => score
  let score := if computer.cpu.performance ≥ 75 then score + 8
    else if computer.cpu.performance ≥ 60 then score + 5 else score
  let score := if computer.ram.capacity ≥ 64 then score + 7
    else if computer.ram.capacity ≥ 32 then score + 5 else score
  let score := if computer.storage.type = "SSD" ∧ computer.storage.capacity > 2000 then score + 5
    else if computer.storage.type = "SSD" ∧ computer.storage.capacity > 1000 then score + 3 else score
  score

/-- Embeds `UsageScorer.score_for_usage` from `usage_scorer.py`: builds the
category → score dict and returns `usage_scores.get(usage, 0.0)`. -/
def score_for_usage (computer : Computer) (usage : String) : ℚ :=
  let usage_scores : List (String × ℚ) :=
    [("ofimática", get_ofimatica_score computer),
     ("juegos", get_gaming_score computer),
     ("diseño gráfico", get_graphics_design_score computer),
     ("edición de video", get_video_editing_score computer),
     ("navegación web", get_web_navigation_score computer),
     ("educación", get_education_score computer),
     ("arquitectura", get_architecture_score computer)]
  ((usage_scores.lookup usage).getD 0)

end UsageScorer

/-! Section: `algorithm/fitness/fitness_calculator.py` -/

/-- The `fitness_weights` dict of `FitnessCalculator.__init__`, with its
default values (user overrides replace entries of this record). -/
structure FitnessWeights where
  price_range : ℚ := 20
  compatibility : ℚ := 25
  usage_match : ℚ := 30
  power_balance : ℚ := 5
  bottleneck : ℚ := 10
  value_cpu : ℚ := 5
  value_gpu : ℚ := 5
  deriving DecidableEq, Repr

/-- Embeds `FitnessCalculator` from `fitness_calculator.py`. -/
structure FitnessCalculator where
  user_preferences : UserPreferences
  fitness_weights : FitnessWeights
  deriving DecidableEq, Repr

namespace FitnessCalculator

/-- Embeds `FitnessCalculator.is_within_price_range` from `fitness_calculator.py`. -/
def is_within_price_range (F : FitnessCalculator) (computer : Computer) : Bool :=
  F.user_preferences.min_price ≤ computer.price
    && computer.price ≤ F.user_preferences.max_price

/-- Embeds `FitnessCalculator.calculate_price_range_score` from `fitness_calculator.py`. -/
def calculate_price_range_score (F : FitnessCalculator) (computer : Computer) : ℚ :=
  if ¬ F.is_within_price_range computer then 0
  else
    let price_range_mid := (F.user_preferences.min_price + F.user_preferences.max_price) / 2
    let max_distance := (F.user_preferences.max_price - F.user_preferences.min_price) / 2
    let distance := |computer.price - price_range_mid|
    1 - min 1 (distance / max_distance)

/-- Embeds `FitnessCalculator.calculate_compatibility_score` from `fitness_calculator.py`. -/
def calculate_compatibility_score (F : FitnessCalculator) (computer : Computer) : ℚ :=
  let score : ℚ := 0
  let score := if computer.motherboard.is_cpu_compatible computer.cpu then score + 0.4 else score
  let score := if computer.motherboard.is_ram_compatible computer.ram then score + 0.3 else score
  let score := match computer.gpu with
    | some g => if g.power_consumption ≤ computer.psu.capacity * 0.7 then score + 0.3 else score + 0
    | none => score
  let score := if computer.cooling.cooling_capacity ≥ computer.cpu.power_consumption then score + 0.2 else score + 0
  let score := if computer.case.can_fit_all_components computer then score + 0.2 else score
  min 1 score

/-- Embeds `FitnessCalculator.calculate_power_balance` from `fitness_calculator.py`. -/
def calculate_power_balance (F : FitnessCalculator) (computer : Computer) : ℚ :=
  let total_power := computer.cpu.power_consumption
    + (match computer.gpu with | some g => g.power_consumption | none => 0)
    + computer.motherboard.power_consumption + 50
  let cRatioQ := if total_power > 0 then computer.psu.capacity / total_power else 0
  if cRatioQ < 1 then 0
  else if 1.2 ≤ cRatioQ ∧ cRatioQ ≤ 1.5 then 1
  else max 0 (1 - (cRatioQ - 1.5) / 0.5)

/-- Embeds `FitnessCalculator.calculate_cooling_score` from `fitness_calculator.py`. -/
def calculate_cooling_score (F : FitnessCalculator) (computer : Computer) : ℚ :=
  let cpu_tdp := computer.cpu.power_consumption
  let cooling_capacity := computer.cooling.cooling_capacity
  let coolRatioQ := if cpu_tdp > 0 then cooling_capacity / cpu_tdp else 0
  if coolRatioQ < 1 then 0
  else if 1 ≤ coolRatioQ ∧ coolRatioQ ≤ 1.5 then 1
  else max 0.7 (1 - (coolRatioQ - 1.5) / 2)

/-- Embeds `FitnessCalculator.calculate_case_compatibility` from `fitness_calculator.py`. -/
def calculate_case_compatibility (F : FitnessCalculator) (computer : Computer) : ℚ :=
  if ¬ computer.case.supports_motherboard_form_factor computer.motherboard.form_factor then 0
  else if (match computer.gpu with
           | some g => !computer.case.can_fit_gpu g
           | none => false) then 0
  else if ¬ computer.case.supports_cooling_type computer.cooling.type then 0
  else 1

/-- Embeds `FitnessCalculator.get_usage_score` from `fitness_calculator.py`:
raw usage score normalized by dividing by 30. -/
def get_usage_score (F : FitnessCalculator) (computer : Computer) : ℚ :=
  let raw_score := UsageScorer.score_for_usage computer F.user_preferences.usage
  raw_score / 30

/-- Embeds `FitnessCalculator.calculate_fitness` from `fitness_calculator.py`. -/
def calculate_fitness (F : FitnessCalculator) (computer : Computer) : ℚ :=
  let fitness_score : ℚ := 0
  let fitness_score := fitness_score + F.fitness_weights.price_range * F.calculate_price_range_score computer
  let fitness_score := fitness_score + F.fitness_weights.compatibility * F.calculate_compatibility_score computer
  let fitness_score := fitness_score + F.fitness_weights.usage_match * F.get_usage_score computer
  let fitness_score := fitness_score + F.fitness_weights.power_balance * F.calculate_power_balance computer
  let fitness_score := fitness_score + F.fitness_weights.bottleneck * (if computer.is_bottleneck then 1 else 0)
  let cpu_value_score := min 1 (computer.points_for_relation_quality_cpu / 100)
  let fitness_score := fitness_score + F.fitness_weights.value_cpu * cpu_value_score
  let gpu_value_score := min 1 (computer.points_for_relation_quality_gpu / 100)
  let fitness_score := fitness_score + F.fitness_weights.value_gpu * gpu_value_score
  let fitness_score := fitness_score + 5 * F.calculate_cooling_score computer
  let fitness_score := fitness_score + 5 * F.calculate_case_compatibility computer
  fitness_score

end FitnessCalculator

/-! Section: `algorithm/operations/mutation.py` -/

/-- The outcomes of the eight independent `random.random() < self.mutation_rate`
tests together with the corresponding `random.choice` results in
`Mutator.mutate`: `none` means the test failed (slot untouched), `some x`
means the test passed and `random.choice` returned `x`.  The GPU slot
draws from the GPU catalog, which may contain a null entry, hence
`Option (Option GPU)`. -/
structure MutationDraw where
  cpu : Option CPU
  gpu : Option (Option GPU)
  ram : Option RAM
  storage : Option Storage
  motherboard : Option Motherboard
  psu : Option PSU
  cooling : Option Cooling
  case : Option Case
  deriving DecidableEq, Repr

/-- Embeds `Mutator.mutate` from `mutation.py`: deep-copies the computer and
then reassigns each mutated slot by plain attribute assignment (a record
update here) — `price` and `fitness` are not touched after the copy. -/
def Mutator.mutate (draw : MutationDraw) (computer : Computer) : Computer :=
  let mutated_computer := computer.deepcopy
  let mutated_computer := match draw.cpu with
    | some x => { mutated_computer with cpu := x } | none => mutated_computer
  let mutated_computer := match draw.gpu with
    | some x => { mutated_computer with gpu := x } | none => mutated_computer
  let mutated_computer := match draw.ram with
    | some x => { mutated_computer with ram := x } | none => mutated_computer
  let mutated_computer := match draw.storage with
    | some x => { mutated_computer with storage := x } | none => mutated_computer
  let mutated_computer := match draw.motherboard with
    | some x => { mutated_computer with motherboard := x } | none => mutated_computer
  let mutated_computer := match draw.psu with
    | some x => { mutated_computer with psu := x } | none => mutated_computer
  let mutated_computer := match draw.cooling with
    | some x => { mutated_computer with cooling := x } | none => mutated_computer
  let mutated_computer := match draw.case with
    | some x => { mutated_computer with case := x } | none => mutated_computer
  mutated_computer

/-! Section: `algorithm/operations/crossover.py` -/

/-- Embeds `UniformCrossover.crossover` from `crossover.py`.  `mask` is the
list of 8 fair coin flips `[random.random() < 0.5 for _ in range(8)]`;
both children are rebuilt through `Computer.__init__` (fresh `price`,
default `fitness = 0`, no `additional_storages`). -/
def UniformCrossover.crossover (mask : Fin 8 → Bool) (parent1 parent2 : Computer) :
    Computer × Computer :=
  let child1_cpu := if mask 0 then parent1.cpu else parent2.cpu
  let child1_gpu := if mask 1 then parent1.gpu else parent2.gpu
  let child1_ram := if mask 2 then parent1.ram else parent2.ram
  let child1_storage := if mask 3 then parent1.storage else parent2.storage
  let child1_motherboard := if mask 4 then parent1.motherboard else parent2.motherboard
  let child1_psu := if mask 5 then parent1.psu else parent2.psu
  let child1_cooling := if mask 6 then parent1.cooling else parent2.cooling
  let child1_case := if mask 7 then parent1.case else parent2.case
  let child2_cpu := if mask 0 then parent2.cpu else parent1.cpu
  let child2_gpu := if mask 1 then parent2.gpu else parent1.gpu
  let child2_ram := if mask 2 then parent2.ram else parent1.ram
  let child2_storage := if mask 3 then parent2.storage else parent1.storage
  let child2_motherboard := if mask 4 then parent2.motherboard else parent1.motherboard
  let child2_psu := if mask 5 then parent2.psu else parent1.psu
  let child2_cooling := if mask 6 then parent2.cooling else parent1.cooling
  let child2_case := if mask 7 then parent2.case else parent1.case
  let child1 := Computer.make child1_cpu child1_gpu child1_ram child1_storage
    child1_motherboard child1_psu child1_cooling child1_case
  let child2 := Computer.make child2_cpu child2_gpu child2_ram child2_storage
    child2_motherboard child2_psu child2_cooling child2_case
  (child1, child2)

/-! Section: `algorithm/operations/repair.py` -/

/-- Embeds `CompatibilityRepairer` from `repair.py`: the component catalogs the
repairer was constructed with. -/
structure CompatibilityRepairer where
  cpus : List CPU
  gpus : List (Option GPU)
  rams : List RAM
  storages : List Storage
  motherboards : List Motherboard
  psus : List PSU
  coolings : List Cooling
  cases : List Case

/-- The random outcomes consumed by one `repair_compatibility` call:
the `random.random() < 0.5` coin of the CPU/motherboard branch and one
`random.choice` selector per candidate list.  Each selector receives
the filtered candidate list and must return one of its elements (the
branch is only taken when the list is non-empty, so the selectors model
`random.choice` on non-empty lists; a selector returning `none` on a
non-empty list never corresponds to a real execution and is excluded by
quantifying over selectors of the form `fun l => l.get? i`). -/
structure RepairDraw where
  coin : Bool
  pickMotherboard : List Motherboard → Option Motherboard
  pickCpu : List CPU → Option CPU
  pickRam : List RAM → Option RAM
  pickPsu : List PSU → Option PSU
  pickCase : List Case → Option Case

/-- Embeds `CompatibilityRepairer.repair_compatibility` from `repair.py`. -/
def CompatibilityRepairer.repair_compatibility (R : CompatibilityRepairer)
    (draw : RepairDraw) (computer : Computer) : Computer :=
  let repaired := computer.deepcopy
  -- Fix CPU-Motherboard incompatibility
  let repaired :=
    if ¬ repaired.motherboard.is_cpu_compatible repaired.cpu then
      if draw.coin then
        let compatible_mobos := R.motherboards.filter fun mobo => mobo.is_cpu_compatible repaired.cpu
        match draw.pickMotherboard compatible_mobos with
        | some m => if compatible_mobos ≠ [] then { repaired with motherboard := m } else repaired
        | none => repaired
      else
        let compatible_cpus := R.cpus.filter fun cpu => repaired.motherboard.is_cpu_compatible cpu
        match draw.pickCpu compatible_cpus with
        | some x => if compatible_cpus ≠ [] then { repaired with cpu := x } else repaired
        | none => repaired
    else repaired
  -- Fix RAM-Motherboard incompatibility
  let repaired :=
    if ¬ repaired.motherboard.is_ram_compatible repaired.ram then
      let compatible_rams := R.rams.filter fun ram => repaired.motherboard.is_ram_compatible ram
      match draw.pickRam compatible_rams with
      | some x => if compatible_rams ≠ [] then { repaired with ram := x } else repaired
      | none => repaired
    else repaired
  -- Fix PSU inadequacy
  let total_power := repaired.cpu.power_consumption
    + (match repaired.gpu with | some g => g.power_consumption | none => 0)
    + repaired.motherboard.power_consumption + 50
  let repaired :=
    if repaired.psu.capacity < total_power then
      let adequate_psus := R.psus.filter fun psu => psu.capacity ≥ total_power
      match draw.pickPsu adequate_psus with
      | some x => if adequate_psus ≠ [] then { repaired with psu := x } else repaired
      | none => repaired
    else repaired
  -- Fix case compatibility
  let repaired :=
    if ¬ repaired.case.can_fit_all_components repaired then
      let compatible_cases := R.cases.filter fun c => c.can_fit_all_components repaired
      match draw.pickCase compatible_cases with
      | some x => if compatible_cases ≠ [] then { repaired with case := x } else repaired
      | none => repaired
    else repaired
  repaired

/-! Section: `algorithm/population/diversity.py` -/

/-- Embeds `DiversityCalculator` from `diversity.py`: the component catalogs
the calculator was constructed with (the GPU list may contain null
entries). -/
structure DiversityCalculator where
  cpus : List CPU
  gpus : List (Option GPU)
  rams : List RAM
  storages : List Storage
  motherboards : List Motherboard
  psus : List PSU

/-- Embeds `DiversityCalculator.calculate_diversity` from `diversity.py`.
Python string sets become `Finset String` (via `List.toFinset`); the
storage key `f"{maker}_{type}"` becomes string concatenation. -/
def DiversityCalculator.calculate_diversity (D : DiversityCalculator)
    (population : List Computer) : ℚ :=
  if population = [] then 0
  else
    let unique_cpus := (population.map fun c => c.cpu.maker).toFinset
    let unique_gpus := ((population.filterMap fun c => c.gpu).map fun g => g.maker).toFinset
    let unique_rams := (population.map fun c => c.ram.maker).toFinset
    let unique_storages := (population.map fun c => c.storage.maker ++ "_" ++ c.storage.type).toFinset
    let unique_motherboards := (population.map fun c => c.motherboard.maker).toFinset
    let unique_psus := (population.map fun c => c.psu.maker).toFinset
    let total_possible_cpus := (D.cpus.map fun c => c.maker).toFinset.card
    let total_possible_gpus := ((D.gpus.filterMap id).map fun g => g.maker).toFinset.card
    let total_possible_rams := (D.rams.map fun r => r.maker).toFinset.card
    let total_possible_storages := (D.storages.map fun s => s.maker ++ "_" ++ s.type).toFinset.card
    let total_possible_motherboards := (D.motherboards.map fun m => m.maker).toFinset.card
    let total_possible_psus := (D.psus.map fun p => p.maker).toFinset.card
    let cpu_diversity : ℚ := if total_possible_cpus > 0 then (unique_cpus.card : ℚ) / total_possible_cpus else 0
    let gpu_diversity : ℚ := if total_possible_gpus > 0 then (unique_gpus.card : ℚ) / total_possible_gpus else 0
    let ram_diversity : ℚ := if total_possible_rams > 0 then (unique_rams.card : ℚ) / total_possible_rams else 0
    let storage_diversity : ℚ := if total_possible_storages > 0 then (unique_storages.card : ℚ) / total_possible_storages else 0
    let mb_diversity : ℚ := if total_possible_motherboards > 0 then (unique_motherboards.card : ℚ) / total_possible_motherboards else 0
    let psu_diversity : ℚ := if total_possible_psus > 0 then (unique_psus.card : ℚ) / total_possible_psus else 0
    cpu_diversity * 0.2 + gpu_diversity * 0.2 + ram_diversity * 0.15
      + storage_diversity * 0.15 + mb_diversity * 0.15 + psu_diversity * 0.15

/-! Section: `algorithm/utils/statistics.py` (the `best_cases` history) -/

/-- Python's `max(population, key=lambda c: c.fitness)` /
`fitness_values.index(max(fitness_values))`: the first element of the
list attaining the maximal fitness (`none` on the empty list).  Both
`StatisticsTracker.update_generation_stats` and the final
`best_computer` selection in `ComputerGenerator.run` use exactly this
rule. -/
def maxByFitness : List Computer → Option Computer
  | [] => none
  | c :: cs => some (cs.foldl (fun acc x => if x.fitness > acc.fitness then x else acc) c)

/-- Embeds `StatisticsTracker.update_generation_stats` from `statistics.py`,
restricted to the `best_cases` history (the only tracker state the
claims read; `worst_cases`/`avg_cases`/`diversity_history` are written
but never consulted by the embedded control flow).  On an empty
population the tracker returns without appending. -/
def StatisticsTracker.update_best_cases (best_cases : List Computer)
    (population : List Computer) : List Computer :=
  match maxByFitness population with
  | some b => best_cases ++ [b]
  | none => best_cases

/-! Section: `algorithm/computer_generator.py` -/

/-- Python `int(q)` on a number: truncation toward zero. -/
def pyInt (q : ℚ) : ℤ :=
  Int.tdiv q.num (q.den : ℤ)

/-- Modelled from the spec: Python's built-in `round` (round half to
even), which the claim's formula `max(1, round(population_size *
elitism_percentage))` refers to; the source file itself never calls
`round`. -/
def pyRound (q : ℚ) : ℤ :=
  let f := ⌊q⌋
  let r := q - f
  if r < 1/2 then f
  else if r > 1/2 then f + 1
  else if f % 2 = 0 then f else f + 1

/-- The constructor-time configuration of `ComputerGenerator`
(`computer_generator.py` `__init__`): `population_size` is clamped to
`max(4, population_size)` and `tournament_size` to
`min(tournament_size, population_size // 2)` before being stored, so a
stored configuration is an arbitrary record of the stored values. -/
structure GAConfig where
  population_size : ℕ
  crossover_rate : ℚ
  base_mutation_rate : ℚ
  generations : ℕ
  elitism_percentage : ℚ
  adaptive_mutation : Bool

/-- Embeds `elite_count = max(1, int(self.population_size * self.elitism_percentage))`
from `ComputerGenerator.run` (line 207).  A negative `int(…)` result is
absorbed by the outer `max 1`. -/
def GAConfig.elite_count (cfg : GAConfig) : ℕ :=
  max 1 (pyInt ((cfg.population_size : ℚ) * cfg.elitism_percentage)).toNat

/-- Embeds `ComputerGenerator.update_mutation_rate` from `computer_generator.py`:
returns the new `self.mutation_rate` given the current one (returned
unchanged when adaptive mutation is disabled — the method returns
early without assigning). -/
def ComputerGenerator.update_mutation_rate (adaptive_mutation : Bool)
    (base_mutation_rate : ℚ) (mutation_rate : ℚ) (diversity : ℚ) : ℚ :=
  if ¬ adaptive_mutation then mutation_rate
  else if diversity < 0.3 then min 0.5 (base_mutation_rate * 2)
  else if diversity > 0.7 then max 0.001 (base_mutation_rate / 2)
  else base_mutation_rate

/-- The value of `self.mutation_rate` after `n` generations of the
evolution loop, where `ds g` is the diversity computed in generation
`g`: `__init__` sets it to the base rate and `update_mutation_rate` is
the only subsequent writer (`computer_generator.py` lines 58, 150–175,
218). -/
def ComputerGenerator.mutationRateAt (adaptive_mutation : Bool)
    (base_mutation_rate : ℚ) (ds : ℕ → ℚ) : ℕ → ℚ
  | 0 => base_mutation_rate
  | n + 1 => ComputerGenerator.update_mutation_rate adaptive_mutation base_mutation_rate
      (ComputerGenerator.mutationRateAt adaptive_mutation base_mutation_rate ds n) (ds n)

/-- Embeds `ComputerGenerator.select_elite` from `computer_generator.py`:
Python's stable `sorted(population, key=lambda x: x.fitness,
reverse=True)` followed by `[:count]`.  A stable sort is uniquely
determined by its comparator, so Mathlib's (stable) insertion sort is
an exact model of CPython's Timsort here. -/
def ComputerGenerator.select_elite (population : List Computer) (count : ℕ) : List Computer :=
  (population.insertionSort fun a b => b.fitness ≤ a.fitness).take count

/-- One pair of children produced by one iteration of the inner
`while len(next_generation) < population_size` loop of
`ComputerGenerator.run`: tournament selection of the two parents,
crossover-or-clone, mutation, the two 50% repair coins and the final
fitness assignment are all randomness-driven, so the finished pair is
supplied by an oracle indexed by the iteration number. -/
def OffspringOracle : Type := ℕ → Computer × Computer

/-- The `while len(next_generation) < self.population_size` loop of
`ComputerGenerator.run` (lines 230–258): appends `child1`, then
`child2` only if the target size is not yet reached.  `fuel` is a
structural-recursion bound; every iteration appends at least one
element, so `fuel = population_size` makes the model agree with the
unbounded Python loop. -/
def ComputerGenerator.fillPopulation (population_size : ℕ) (offspring : OffspringOracle) :
    ℕ → ℕ → List Computer → List Computer
  | 0, _, next_generation => next_generation
  | fuel + 1, i, next_generation =>
    if next_generation.length < population_size then
      let (child1, child2) := offspring i
      let next_generation := next_generation ++ [child1]
      let next_generation :=
        if next_generation.length < population_size then next_generation ++ [child2]
        else next_generation
      ComputerGenerator.fillPopulation population_size offspring fuel (i + 1) next_generation
    else next_generation

/-- One iteration of the outer `for generation in range(self.generations)`
loop of `ComputerGenerator.run`, up to the statistics update: select the
elites, copy them into `next_generation`, and fill up to
`population_size` with oracle-supplied children.  (The diversity
computation and mutation-rate update of lines 214–218 only influence
the oracle-supplied children, and the oracle is universally
quantified.) -/
def ComputerGenerator.advanceGeneration (cfg : GAConfig) (offspring : OffspringOracle)
    (population : List Computer) : List Computer :=
  let elites := ComputerGenerator.select_elite population cfg.elite_count
  let next_generation := elites
  ComputerGenerator.fillPopulation cfg.population_size offspring cfg.population_size 0 next_generation

/-- The early-stopping test of `ComputerGenerator.run` (lines 272–276):
`generation > 20`, `len(best_cases) >= 20` and
`abs(best_cases[-1].fitness - best_cases[-20].fitness) < 0.001`. -/
def ComputerGenerator.earlyStopCheck (generation : ℕ) (best_cases : List Computer) : Bool :=
  decide (generation > 20) && decide (best_cases.length ≥ 20) &&
    (match best_cases.get? (best_cases.length - 1), best_cases.get? (best_cases.length - 20) with
     | some a, some b => decide (|a.fitness - b.fitness| < 0.001)
     | _, _ => false)

/-- The population together with the accumulated `best_cases` history. -/
structure RunState where
  population : List Computer
  best_cases : List Computer
  deriving DecidableEq

/-- The body of one iteration of the main evolution loop (lines
210–264): build the next population and append the generation's best
computer to `best_cases` (`update_generation_stats`). -/
def ComputerGenerator.nextState (cfg : GAConfig) (offspring : ℕ → OffspringOracle)
    (g : ℕ) (st : RunState) : RunState :=
  let population := ComputerGenerator.advanceGeneration cfg (offspring g) st.population
  ⟨population, StatisticsTracker.update_best_cases st.best_cases population⟩

/-- The main evolution loop of `ComputerGenerator.run` (lines 210–276).
`g` is the 0-based `generation` index, `fuel = cfg.generations - g`
iterations remain; the returned `ℕ` is `generations_completed =
generation + 1` as reported by the source (line 287).  Each iteration
runs `nextState` and breaks when `earlyStopCheck` fires. -/
def ComputerGenerator.runLoop (cfg : GAConfig) (offspring : ℕ → OffspringOracle) :
    ℕ → ℕ → RunState → RunState × ℕ
  | 0, g, st => (st, g)
  | fuel + 1, g, st =>
    let st' := ComputerGenerator.nextState cfg offspring g st
    if ComputerGenerator.earlyStopCheck g st'.best_cases then (st', g + 1)
    else ComputerGenerator.runLoop cfg offspring fuel (g + 1) st'

/-- Embeds `ComputerGenerator.run` after the initial population has been
generated: runs the evolution loop and returns the first
maximum-fitness computer of the final population (`max(self.population,
key=lambda c: c.fitness)`), the final state and
`generations_completed`.  (For `generations = 0` the Python code would
raise `NameError` on line 287; no claim concerns that case.) -/
def ComputerGenerator.run (cfg : GAConfig) (offspring : ℕ → OffspringOracle)
    (initial_population : List Computer) : Option Computer × RunState × ℕ :=
  let (st, completed) :=
    ComputerGenerator.runLoop cfg offspring cfg.generations 0 ⟨initial_population, []⟩
  (maxByFitness st.population, st, completed)

/-- The state of the evolution loop after `g` completed generations if
no early stop fires: the trace that `ComputerGenerator.runLoop` follows
up to (and including) the generation in which the break triggers. -/
def ComputerGenerator.stateAt (cfg : GAConfig) (offspring : ℕ → OffspringOracle)
    (initial_population : List Computer) : ℕ → RunState
  | 0 => ⟨initial_population, []⟩
  | g + 1 =>
    ComputerGenerator.nextState cfg offspring g
      (ComputerGenerator.stateAt cfg offspring initial_population g)

/-- The early-stopping condition as evaluated at the end of (0-based)
generation `g` of the loop. -/
def ComputerGenerator.stopsAt (cfg : GAConfig) (offspring : ℕ → OffspringOracle)
    (initial_population : List Computer) (g : ℕ) : Prop :=
  ComputerGenerator.earlyStopCheck g
    (ComputerGenerator.stateAt cfg offspring initial_population (g + 1)).best_cases = true

instance (cfg offspring initial_population g) :
    Decidable (ComputerGenerator.stopsAt cfg offspring initial_population g) := by
  unfold ComputerGenerator.stopsAt
  infer_instance

/-- The `cpu_value_score` local of `FitnessCalculator.calculate_fitness`
(`fitness_calculator.py` lines 79–80): the CPU value-for-money sub-score
before it is multiplied by its weight. -/
def FitnessCalculator.cpu_value_score (computer : Computer) : ℚ :=
  min 1 (computer.points_for_relation_quality_cpu / 100)

/-! Subsection: Maker-set views of `calculate_diversity` (used to state the
diversity claim's side conditions) -/

/-- CPU makers observed in a population (`unique_cpus`). -/
def popCpuMakers (population : List Computer) : Finset String :=
  (population.map fun c => c.cpu.maker).toFinset

/-- GPU makers observed in a population (`unique_gpus`; absent GPUs do
not contribute). -/
def popGpuMakers (population : List Computer) : Finset String :=
  ((population.filterMap fun c => c.gpu).map fun g => g.maker).toFinset

/-- RAM makers observed in a population (`unique_rams`). -/
def popRamMakers (population : List Computer) : Finset String :=
  (population.map fun c => c.ram.maker).toFinset

/-- Storage maker+type keys observed in a population (`unique_storages`). -/
def popStorageKeys (population : List Computer) : Finset String :=
  (population.map fun c => c.storage.maker ++ "_" ++ c.storage.type).toFinset

/-- Motherboard makers observed in a population (`unique_motherboards`). -/
def popMotherboardMakers (population : List Computer) : Finset String :=
  (population.map fun c => c.motherboard.maker).toFinset

/-- PSU makers observed in a population (`unique_psus`). -/
def popPsuMakers (population : List Computer) : Finset String :=
  (population.map fun c => c.psu.maker).toFinset

/-- CPU makers present in the catalog (`total_possible_cpus` counts this set). -/
def DiversityCalculator.cpuMakers (D : DiversityCalculator) : Finset String :=
  (D.cpus.map fun c => c.maker).toFinset

/-- GPU makers present in the catalog, null entries skipped. -/
def DiversityCalculator.gpuMakers (D : DiversityCalculator) : Finset String :=
  ((D.gpus.filterMap id).map fun g => g.maker).toFinset

/-- RAM makers present in the catalog. -/
def DiversityCalculator.ramMakers (D : DiversityCalculator) : Finset String :=
  (D.rams.map fun r => r.maker).toFinset

/-- Storage maker+type keys present in the catalog. -/
def DiversityCalculator.storageKeys (D : DiversityCalculator) : Finset String :=
  (D.storages.map fun s => s.maker ++ "_" ++ s.type).toFinset

/-- Motherboard makers present in the catalog. -/
def DiversityCalculator.motherboardMakers (D : DiversityCalculator) : Finset String :=
  (D.motherboards.map fun m => m.maker).toFinset

/-- PSU makers present in the catalog. -/
def DiversityCalculator.psuMakers (D : DiversityCalculator) : Finset String :=
  (D.psus.map fun p => p.maker).toFinset

/-- Every component maker (and storage maker+type key) occurring in the
population also occurs in the corresponding catalog: the situation in
every population the engine actually builds, since all slots are drawn
from the catalogs. -/
def DiversityCalculator.populationFromCatalog (D : DiversityCalculator)
    (population : List Computer) : Prop :=
  popCpuMakers population ⊆ D.cpuMakers
    ∧ popGpuMakers population ⊆ D.gpuMakers
    ∧ popRamMakers population ⊆ D.ramMakers
    ∧ popStorageKeys population ⊆ D.storageKeys
    ∧ popMotherboardMakers population ⊆ D.motherboardMakers
    ∧ popPsuMakers population ⊆ D.psuMakers

/-- Every catalog maker appears at least once in the population, in all
six diversity dimensions (the claim's coverage hypothesis). -/
def DiversityCalculator.catalogCovered (D : DiversityCalculator)
    (population : List Computer) : Prop :=
  D.cpuMakers ⊆ popCpuMakers population
    ∧ D.gpuMakers ⊆ popGpuMakers population
    ∧ D.ramMakers ⊆ popRamMakers population
    ∧ D.storageKeys ⊆ popStorageKeys population
    ∧ D.motherboardMakers ⊆ popMotherboardMakers population
    ∧ D.psuMakers ⊆ popPsuMakers population

/-- Each of the six diversity dimensions has at least one maker in the
catalog. -/
def DiversityCalculator.dimsNonempty (D : DiversityCalculator) : Prop :=
  D.cpuMakers.Nonempty ∧ D.gpuMakers.Nonempty ∧ D.ramMakers.Nonempty
    ∧ D.storageKeys.Nonempty ∧ D.motherboardMakers.Nonempty ∧ D.psuMakers.Nonempty

instance (D : DiversityCalculator) (population : List Computer) :
    Decidable (D.populationFromCatalog population) := by
  unfold DiversityCalculator.populationFromCatalog
  infer_instance

instance (D : DiversityCalculator) (population : List Computer) :
    Decidable (D.catalogCovered population) := by
  unfold DiversityCalculator.catalogCovered
  infer_instance

instance (D : DiversityCalculator) : Decidable D.dimsNonempty := by
  unfold DiversityCalculator.dimsNonempty
  infer_instance

/-! Subsection: Concrete sample data (catalog entries and builds used by
witnesses and counterexamples) -/

/-- A sample CPU (performance 50, price 100). -/
def cpuA : CPU :=
  ⟨"Intel", "i5-12400", 50, 100, 65, true, 10, "LGA1700"⟩

/-- A second sample CPU, 100 currency units more expensive than `cpuA`. -/
def cpuB : CPU :=
  ⟨"Intel", "i7-12700", 80, 200, 90, true, 12, "LGA1700"⟩

/-- A sample GPU. -/
def gpuA : GPU := ⟨"NVIDIA", 300, 170, 60, 250⟩

/-- A sample RAM kit, compatible with `mbA`. -/
def ramA : RAM := ⟨"Corsair", "Vengeance", 16, 3200, "DDR4", 60⟩

/-- A sample storage drive. -/
def stoA : Storage := ⟨"Samsung", "970", "SSD", 1000, 90⟩

/-- A sample motherboard, compatible with `cpuA`, `cpuB` and `ramA`. -/
def mbA : Motherboard :=
  ⟨"ASUS", "B660", 120, 30, 64, 3600, "DDR4", ["i5-12400", "i7-12700"], "ATX", "LGA1700"⟩

/-- A sample PSU with ample capacity. -/
def psuA : PSU := ⟨"EVGA", "600W", 600, 70⟩

/-- A sample air cooler. -/
def coolA : Cooling := ⟨"Noctua", "U12", "Air", 120, 50, 150⟩

/-- A sample case that fits `mbA`, `coolA` and any GPU up to 300 mm. -/
def caseA : Case := ⟨"NZXT", "H510", ["ATX"], 300, ⟨some 160, some [240]⟩, 80⟩

/-- A fully compatible sample build (fresh from `Computer.__init__`, so
its `price` equals its component price sum: 570). -/
def sampleComputer : Computer :=
  Computer.make cpuA none ramA stoA mbA psuA coolA caseA

/-- The build `sampleComputer` after its `price` attribute has gone stale (as
happens to every build that `Mutator.mutate` actually changes). -/
def staleComputer : Computer := { sampleComputer with price := sampleComputer.price + 1 }

/-- A mutation draw in which only the CPU test fires, replacing the CPU
with `cpuB`. -/
def drawCpuB : MutationDraw := ⟨some cpuB, none, none, none, none, none, none, none⟩

/-- A repair randomness record whose selectors never pick (the repair
branches of interest never fire on the inputs it is used with). -/
def drawNone : RepairDraw :=
  ⟨true, fun _ => none, fun _ => none, fun _ => none, fun _ => none, fun _ => none⟩

/-- A repairer over singleton catalogs matching `sampleComputer`. -/
def repairerA : CompatibilityRepairer :=
  ⟨[cpuA], [none], [ramA], [stoA], [mbA], [psuA], [coolA], [caseA]⟩

/-- CPU of a given maker (for diversity counterexamples). -/
def mkCPU (mk : String) : CPU := ⟨mk, "m", 50, 100, 65, false, 0, "S"⟩

/-- GPU of a given maker. -/
def mkGPU (mk : String) : GPU := ⟨mk, 300, 170, 60, 250⟩

/-- RAM of a given maker. -/
def mkRAM (mk : String) : RAM := ⟨mk, "m", 16, 3200, "DDR4", 60⟩

/-- Storage of a given maker. -/
def mkStorage (mk : String) : Storage := ⟨mk, "m", "SSD", 1000, 90⟩

/-- Motherboard of a given maker. -/
def mkMotherboard (mk : String) : Motherboard :=
  ⟨mk, "m", 120, 30, 64, 3600, "DDR4", [], "ATX", "S"⟩

/-- PSU of a given maker. -/
def mkPSU (mk : String) : PSU := ⟨mk, "m", 600, 70⟩

/-- A build whose every component (and its GPU) carries maker `mk`. -/
def buildOf (mk : String) : Computer :=
  Computer.make (mkCPU mk) (some (mkGPU mk)) (mkRAM mk) (mkStorage mk)
    (mkMotherboard mk) (mkPSU mk) coolA caseA

/-- A diversity catalog with exactly one maker (`"A"`) per dimension. -/
def catalogA : DiversityCalculator :=
  ⟨[mkCPU "A"], [some (mkGPU "A")], [mkRAM "A"], [mkStorage "A"],
    [mkMotherboard "A"], [mkPSU "A"]⟩

/-- The same catalog with an empty GPU list. -/
def catalogNoGpu : DiversityCalculator :=
  ⟨[mkCPU "A"], [], [mkRAM "A"], [mkStorage "A"], [mkMotherboard "A"], [mkPSU "A"]⟩

/-- A two-build population whose makers (`"X"`, `"Y"`) all lie outside
`catalogA`. -/
def popXY : List Computer := [buildOf "X", buildOf "Y"]

/-- A one-build population covering every maker of `catalogNoGpu`. -/
def popA : List Computer := [buildOf "A"]

/-- GA configuration with `population_size = 10` and
`elitism_percentage = 0.15` (so `10 * 0.15 = 1.5`). -/
def cfgC3 : GAConfig := ⟨10, 0.8, 0.1, 5, 0.15, true⟩

/-- A population of ten identical builds. -/
def popTen : List Computer := List.replicate 10 sampleComputer

/-- GA configuration with exactly 21 generations. -/
def cfgG21 : GAConfig := ⟨4, 0.8, 0.1, 21, 0.25, true⟩

/-- GA configuration with a single generation. -/
def cfgG1 : GAConfig := ⟨4, 0.8, 0.1, 1, 0.25, true⟩

/-- An offspring oracle that always produces two copies of
`sampleComputer`. -/
def offspringConst : ℕ → OffspringOracle := fun _ _ => (sampleComputer, sampleComputer)

/-- A population of four identical builds. -/
def popFour : List Computer := List.replicate 4 sampleComputer

/-! Section: Theorems -/

theorem Computer.make_cpu (cpu gpu ram storage motherboard psu cooling case fitness adds) :
    (Computer.make cpu gpu ram storage motherboard psu cooling case fitness adds).cpu = cpu := rfl

theorem Computer.make_gpu (cpu gpu ram storage motherboard psu cooling case fitness adds) :
    (Computer.make cpu gpu ram storage motherboard psu cooling case fitness adds).gpu = gpu := rfl

theorem Computer.make_ram (cpu gpu ram storage motherboard psu cooling case fitness adds) :
    (Computer.make cpu gpu ram storage motherboard psu cooling case fitness adds).ram = ram := rfl

theorem Computer.make_storage (cpu gpu ram storage motherboard psu cooling case fitness adds) :
    (Computer.make cpu gpu ram storage motherboard psu cooling case fitness adds).storage = storage := rfl

theorem Computer.make_motherboard (cpu gpu ram storage motherboard psu cooling case fitness adds) :
    (Computer.make cpu gpu ram storage motherboard psu cooling case fitness adds).motherboard = motherboard := rfl

theorem Computer.make_psu (cpu gpu ram storage motherboard psu cooling case fitness adds) :
    (Computer.make cpu gpu ram storage motherboard psu cooling case fitness adds).psu = psu := rfl

theorem Computer.make_cooling (cpu gpu ram storage motherboard psu cooling case fitness adds) :
    (Computer.make cpu gpu ram storage motherboard psu cooling case fitness adds).cooling = cooling := rfl

theorem Computer.make_case (cpu gpu ram storage motherboard psu cooling case fitness adds) :
    (Computer.make cpu gpu ram storage motherboard psu cooling case fitness adds).case = case := rfl

theorem Computer.make_fitness (cpu gpu ram storage motherboard psu cooling case fitness adds) :
    (Computer.make cpu gpu ram storage motherboard psu cooling case fitness adds).fitness = fitness := rfl

theorem Computer.make_adds (cpu gpu ram storage motherboard psu cooling case fitness adds) :
    (Computer.make cpu gpu ram storage motherboard psu cooling
      case fitness adds).additional_storages = adds := rfl

/-- Construction through `Computer.__init__` establishes the price invariant. -/
theorem Computer.make_price (cpu gpu ram storage motherboard psu cooling case fitness adds) :
    (Computer.make cpu gpu ram storage motherboard psu cooling case fitness adds).price =
      (Computer.make cpu gpu ram storage motherboard psu cooling
        case fitness adds).componentPriceSum := rfl

/-- A `deepcopy` keeps every slot and `fitness`, and re-establishes the
price invariant. -/
theorem Computer.deepcopy_eq (c : Computer) :
    c.deepcopy = { c with price := c.componentPriceSum } := rfl

theorem Computer.deepcopy_of_price_eq (c : Computer)
    (h : c.price = c.componentPriceSum) : c.deepcopy = c := by
  rw [Computer.deepcopy_eq, ← h]

/-- C6: when adaptive mutation is enabled, `update_mutation_rate`
maps diversity `d` and `baseRate` to `min(0.5, baseRate*2)` for
`d < 0.3`, `max(0.001, baseRate/2)` for `d > 0.7`, and `baseRate`
otherwise; when it is disabled the engine's mutation rate stays at
`baseRate` forever; and for `baseRate = 0.1` the diversities `0.2`,
`0.5`, `0.9` yield rates `0.2`, `0.1`, `0.05`. -/
theorem claim_C6_adaptive_mutation (baseRate rate d : ℚ) :
    (d < 0.3 →
      ComputerGenerator.update_mutation_rate true baseRate rate d = min 0.5 (baseRate * 2)) ∧
    (d > 0.7 →
      ComputerGenerator.update_mutation_rate true baseRate rate d = max 0.001 (baseRate / 2)) ∧
    (0.3 ≤ d → d ≤ 0.7 →
      ComputerGenerator.update_mutation_rate true baseRate rate d = baseRate) ∧
    (∀ (ds : ℕ → ℚ) (n : ℕ),
      ComputerGenerator.mutationRateAt false baseRate ds n = baseRate) ∧
    ComputerGenerator.update_mutation_rate true 0.1 rate 0.2 = 0.2 ∧
    ComputerGenerator.update_mutation_rate true 0.1 rate 0.5 = 0.1 ∧
    ComputerGenerator.update_mutation_rate true 0.1 rate 0.9 = 0.05 := by
  refine ⟨?_, ?_, ?_, ?_, ?_, ?_, ?_⟩
  · intro h
    simp [ComputerGenerator.update_mutation_rate, h]
  · intro h
    simp [ComputerGenerator.update_mutation_rate, h, not_lt.mpr (le_of_lt (by linarith : (0.3:ℚ) < d))]
  · intro h1 h2
    simp [ComputerGenerator.update_mutation_rate, not_lt.mpr h1, not_lt.mpr h2]
  · intro ds n
    induction n with
    | zero => rfl
    | succ n ih =>
      simp [ComputerGenerator.mutationRateAt, ih, ComputerGenerator.update_mutation_rate]
  · norm_num [ComputerGenerator.update_mutation_rate]
  · norm_num [ComputerGenerator.update_mutation_rate]
  · norm_num [ComputerGenerator.update_mutation_rate]

/-- Witness for C6 at `baseRate = 0.1`, `d = 0.2`. -/
theorem claim_C6_adaptive_mutation_witness :
    ComputerGenerator.update_mutation_rate true 0.1 0.1 0.2 = min 0.5 (0.1 * 2) :=
  (claim_C6_adaptive_mutation 0.1 0.1 0.2).1 (by norm_num)

/-- C4 (counterexample): for `sampleComputer` (CPU performance 50,
price 100 > 0) the code's CPU-value sub-score is `0.1`, while the
claim's formula `min(1, (performance/price)*100/100)` gives `0.5`. -/
theorem claim_C4_counterexample :
    sampleComputer.cpu.price > 0 ∧
    FitnessCalculator.cpu_value_score sampleComputer = 1/10 ∧
    min 1 ((sampleComputer.cpu.performance / sampleComputer.cpu.price) * 100 / 100) = 1/2 ∧
    (1/10 : ℚ) ≠ 1/2 := by
  refine ⟨by norm_num [sampleComputer, Computer.make, cpuA], ?_, ?_, by norm_num⟩
  · norm_num [FitnessCalculator.cpu_value_score, Computer.points_for_relation_quality_cpu,
      sampleComputer, Computer.make, cpuA]
  · norm_num [sampleComputer, Computer.make, cpuA]

/-- C4 (amended): for CPU price > 0, the CPU-value sub-score of
`calculate_fitness` equals `min(1, min(10, (performance/price)*100)/100)`,
i.e. `min(0.1, performance/price)` — the inner cap at 10 points makes
the sub-score top out at 0.1, not 1. -/
theorem claim_C4_cpu_value_score (c : Computer) (h : 0 < c.cpu.price) :
    FitnessCalculator.cpu_value_score c =
      min (1/10) (c.cpu.performance / c.cpu.price) := by
  unfold FitnessCalculator.cpu_value_score Computer.points_for_relation_quality_cpu
  rw [if_neg (not_le.mpr h)]
  rcases le_total (c.cpu.performance / c.cpu.price) (1/10) with hle | hge
  · rw [min_eq_right (by linarith : c.cpu.performance / c.cpu.price * 100 ≤ 10)]
    rw [mul_div_assoc]
    norm_num
    rw [min_eq_right (by linarith), min_eq_right hle]
  · rw [min_eq_left (by linarith : (10:ℚ) ≤ c.cpu.performance / c.cpu.price * 100)]
    rw [min_eq_left hge]
    norm_num

/-- Witness for C4 (amended) at `sampleComputer`. -/
theorem claim_C4_cpu_value_score_witness :
    FitnessCalculator.cpu_value_score sampleComputer =
      min (1/10) (sampleComputer.cpu.performance / sampleComputer.cpu.price) :=
  claim_C4_cpu_value_score sampleComputer (by norm_num [sampleComputer, Computer.make, cpuA])

/-- C10: for any usage string other than the seven recognized
categories, `UsageScorer.score_for_usage` returns 0 (the dict lookup
falls through to the `0.0` default), and hence the normalized
usage-match fitness term `get_usage_score` is 0 as well. -/
theorem claim_C10_unknown_usage (c : Computer) (u : String)
    (h : u ∉ ["ofimática", "juegos", "diseño gráfico", "edición de video",
              "navegación web", "educación", "arquitectura"]) :
    UsageScorer.score_for_usage c u = 0 ∧
    ∀ F : FitnessCalculator, F.user_preferences.usage = u →
      F.get_usage_score c = 0 := by
  simp only [List.mem_cons, List.not_mem_nil, or_false, not_or] at h
  obtain ⟨h1, h2, h3, h4, h5, h6, h7⟩ := h
  have hs : UsageScorer.score_for_usage c u = 0 := by
    unfold UsageScorer.score_for_usage
    have e1 : (u == "ofimática") = false := beq_eq_false_iff_ne.mpr h1
    have e2 : (u == "juegos") = false := beq_eq_false_iff_ne.mpr h2
    have e3 : (u == "diseño gráfico") = false := beq_eq_false_iff_ne.mpr h3
    have e4 : (u == "edición de video") = false := beq_eq_false_iff_ne.mpr h4
    have e5 : (u == "navegación web") = false := beq_eq_false_iff_ne.mpr h5
    have e6 : (u == "educación") = false := beq_eq_false_iff_ne.mpr h6
    have e7 : (u == "arquitectura") = false := beq_eq_false_iff_ne.mpr h7
    simp [List.lookup, e1, e2, e3, e4, e5, e6, e7]
  refine ⟨hs, fun F hF => ?_⟩
  unfold FitnessCalculator.get_usage_score
  rw [hF, hs]
  norm_num

/-- Witness for C10 at `sampleComputer` and the unknown usage `"gaming"`. -/
theorem claim_C10_unknown_usage_witness :
    UsageScorer.score_for_usage sampleComputer "gaming" = 0 :=
  (claim_C10_unknown_usage sampleComputer "gaming" (by decide)).1

/-- Complementarity of one slot under a shared coin flip. -/
theorem ifSwap {α : Type} (b : Bool) (x y : α) :
    ((if b then x else y) = x ∧ (if b then y else x) = y) ∨
      ((if b then x else y) = y ∧ (if b then y else x) = x) := by
  cases b <;> simp

/-- C8: for every mask and every pair of parents, the two children
of `UniformCrossover.crossover` are per-slot complementary in each of
the 8 component slots: in every slot child 1 holds one parent's value
and child 2 the other parent's, and the 8 coordinates of the mask are
the only slot-origin choices made. -/
theorem claim_C8_crossover_complementary (mask : Fin 8 → Bool) (p1 p2 : Computer) :
    (((UniformCrossover.crossover mask p1 p2).1.cpu = p1.cpu ∧
        (UniformCrossover.crossover mask p1 p2).2.cpu = p2.cpu) ∨
      ((UniformCrossover.crossover mask p1 p2).1.cpu = p2.cpu ∧
        (UniformCrossover.crossover mask p1 p2).2.cpu = p1.cpu)) ∧
    (((UniformCrossover.crossover mask p1 p2).1.gpu = p1.gpu ∧
        (UniformCrossover.crossover mask p1 p2).2.gpu = p2.gpu) ∨
      ((UniformCrossover.crossover mask p1 p2).1.gpu = p2.gpu ∧
        (UniformCrossover.crossover mask p1 p2).2.gpu = p1.gpu)) ∧
    (((UniformCrossover.crossover mask p1 p2).1.ram = p1.ram ∧
        (UniformCrossover.crossover mask p1 p2).2.ram = p2.ram) ∨
      ((UniformCrossover.crossover mask p1 p2).1.ram = p2.ram ∧
        (UniformCrossover.crossover mask p1 p2).2.ram = p1.ram)) ∧
    (((UniformCrossover.crossover mask p1 p2).1.storage = p1.storage ∧
        (UniformCrossover.crossover mask p1 p2).2.storage = p2.storage) ∨
      ((UniformCrossover.crossover mask p1 p2).1.storage = p2.storage ∧
        (UniformCrossover.crossover mask p1 p2).2.storage = p1.storage)) ∧
    (((UniformCrossover.crossover mask p1 p2).1.motherboard = p1.motherboard ∧
        (UniformCrossover.crossover mask p1 p2).2.motherboard = p2.motherboard) ∨
      ((UniformCrossover.crossover mask p1 p2).1.motherboard = p2.motherboard ∧
        (UniformCrossover.crossover mask p1 p2).2.motherboard = p1.motherboard)) ∧
    (((UniformCrossover.crossover mask p1 p2).1.psu = p1.psu ∧
        (UniformCrossover.crossover mask p1 p2).2.psu = p2.psu) ∨
      ((UniformCrossover.crossover mask p1 p2).1.psu = p2.psu ∧
        (UniformCrossover.crossover mask p1 p2).2.psu = p1.psu)) ∧
    (((UniformCrossover.crossover mask p1 p2).1.cooling = p1.cooling ∧
        (UniformCrossover.crossover mask p1 p2).2.cooling = p2.cooling) ∨
      ((UniformCrossover.crossover mask p1 p2).1.cooling = p2.cooling ∧
        (UniformCrossover.crossover mask p1 p2).2.cooling = p1.cooling)) ∧
    (((UniformCrossover.crossover mask p1 p2).1.case = p1.case ∧
        (UniformCrossover.crossover mask p1 p2).2.case = p2.case) ∨
      ((UniformCrossover.crossover mask p1 p2).1.case = p2.case ∧
        (UniformCrossover.crossover mask p1 p2).2.case = p1.case)) := by
  unfold UniformCrossover.crossover
  simp only [Computer.make_cpu, Computer.make_gpu, Computer.make_ram, Computer.make_storage,
    Computer.make_motherboard, Computer.make_psu, Computer.make_cooling, Computer.make_case]
  exact ⟨ifSwap (mask 0) _ _, ifSwap (mask 1) _ _, ifSwap (mask 2) _ _, ifSwap (mask 3) _ _,
    ifSwap (mask 4) _ _, ifSwap (mask 5) _ _, ifSwap (mask 6) _ _, ifSwap (mask 7) _ _⟩

/-- C1 (code evidence): `Mutator.mutate` with a draw replacing only
the CPU (`cpuA`, price 100, by `cpuB`, price 200) returns a Build
whose `price` field still equals the pre-mutation price although the
sum of the held components' prices is 100 larger — the price field is
copied, not recomputed. -/
theorem claim_C1_mutate_stale_price :
    (Mutator.mutate drawCpuB sampleComputer).cpu = cpuB ∧
    (Mutator.mutate drawCpuB sampleComputer).price = sampleComputer.price ∧
    (Mutator.mutate drawCpuB sampleComputer).componentPriceSum = sampleComputer.price + 100 ∧
    (Mutator.mutate drawCpuB sampleComputer).price ≠
      (Mutator.mutate drawCpuB sampleComputer).componentPriceSum := by
  refine ⟨rfl, rfl, ?_, ?_⟩ <;>
    norm_num [Mutator.mutate, drawCpuB, sampleComputer, Computer.make, Computer.deepcopy,
      Computer.componentPriceSum, cpuA, cpuB, ramA, stoA, mbA, psuA, coolA, caseA]

/-- The check `can_fit_all_components` never reads the `price` field. -/
theorem Case.can_fit_all_components_price (k : Case) (c : Computer) (p : ℚ) :
    k.can_fit_all_components { c with price := p } = k.can_fit_all_components c := rfl

/-- The sum `componentPriceSum` never reads the `price` field. -/
theorem Computer.componentPriceSum_price (c : Computer) (p : ℚ) :
    Computer.componentPriceSum { c with price := p } = c.componentPriceSum := rfl

/-- On a Build satisfying all four repair constraints, every repair
branch is skipped and `repair_compatibility` returns the entry
`deepcopy` unchanged, for every random draw. -/
theorem repair_noop_aux (R : CompatibilityRepairer) (draw : RepairDraw) (c : Computer)
    (h1 : c.motherboard.is_cpu_compatible c.cpu = true)
    (h2 : c.motherboard.is_ram_compatible c.ram = true)
    (h3 : c.cpu.power_consumption
        + (match c.gpu with | some g => g.power_consumption | none => 0)
        + c.motherboard.power_consumption + 50 ≤ c.psu.capacity)
    (h4 : c.case.can_fit_all_components c = true) :
    R.repair_compatibility draw c = c.deepcopy := by
  unfold CompatibilityRepairer.repair_compatibility
  simp only [Computer.deepcopy_eq]
  simp [h1, h2, h4, not_lt.mpr h3, Case.can_fit_all_components_price]

/-- C9 (amended): on a Build already satisfying the CPU/motherboard,
RAM, PSU-capacity and case constraints, `repair_compatibility` leaves
every component slot and `fitness` unchanged for every random draw; its
`price`, however, is re-derived from the slots by the entry `deepcopy`
(it equals the component price sum), hence is unchanged exactly when
the input's `price` was already consistent. -/
theorem claim_C9_repair_noop (R : CompatibilityRepairer) (draw : RepairDraw) (c : Computer)
    (h1 : c.motherboard.is_cpu_compatible c.cpu = true)
    (h2 : c.motherboard.is_ram_compatible c.ram = true)
    (h3 : c.cpu.power_consumption
        + (match c.gpu with | some g => g.power_consumption | none => 0)
        + c.motherboard.power_consumption + 50 ≤ c.psu.capacity)
    (h4 : c.case.can_fit_all_components c = true) :
    R.repair_compatibility draw c = c.deepcopy ∧
    (R.repair_compatibility draw c).cpu = c.cpu ∧
    (R.repair_compatibility draw c).gpu = c.gpu ∧
    (R.repair_compatibility draw c).ram = c.ram ∧
    (R.repair_compatibility draw c).storage = c.storage ∧
    (R.repair_compatibility draw c).motherboard = c.motherboard ∧
    (R.repair_compatibility draw c).psu = c.psu ∧
    (R.repair_compatibility draw c).cooling = c.cooling ∧
    (R.repair_compatibility draw c).case = c.case ∧
    (R.repair_compatibility draw c).additional_storages = c.additional_storages ∧
    (R.repair_compatibility draw c).fitness = c.fitness ∧
    (R.repair_compatibility draw c).price = c.componentPriceSum ∧
    (c.price = c.componentPriceSum → R.repair_compatibility draw c = c) := by
  have hrep : R.repair_compatibility draw c = c.deepcopy :=
    repair_noop_aux R draw c h1 h2 h3 h4
  refine ⟨hrep, ?_⟩
  rw [hrep, Computer.deepcopy_eq]
  refine ⟨rfl, rfl, rfl, rfl, rfl, rfl, rfl, rfl, rfl, rfl, rfl, fun hp => ?_⟩
  rw [← hp]

/-- Witness for C9 (amended) at the fully compatible `sampleComputer`
(whose `price` is consistent), with the `drawNone` randomness. -/
theorem claim_C9_repair_noop_witness :
    repairerA.repair_compatibility drawNone sampleComputer = sampleComputer :=
  (claim_C9_repair_noop repairerA drawNone sampleComputer (by decide) (by decide)
      (by norm_num [sampleComputer, Computer.make, cpuA, mbA, psuA])
      (by decide)).2.2.2.2.2.2.2.2.2.2.2.2 rfl

/-- C9 (counterexample): `staleComputer` satisfies all four
constraints of the claim, yet `repair_compatibility` changes its
`price` field (deepcopy re-derives the price from the slots), so the
returned Build is not equivalent in the claim's sense. -/
theorem claim_C9_counterexample :
    staleComputer.motherboard.is_cpu_compatible staleComputer.cpu = true ∧
    staleComputer.motherboard.is_ram_compatible staleComputer.ram = true ∧
    staleComputer.cpu.power_consumption
        + (match staleComputer.gpu with | some g => g.power_consumption | none => 0)
        + staleComputer.motherboard.power_consumption + 50 ≤ staleComputer.psu.capacity ∧
    staleComputer.case.can_fit_all_components staleComputer = true ∧
    (repairerA.repair_compatibility drawNone staleComputer).price ≠ staleComputer.price := by
  have h3 : staleComputer.cpu.power_consumption
      + (match staleComputer.gpu with | some g => g.power_consumption | none => 0)
      + staleComputer.motherboard.power_consumption + 50 ≤ staleComputer.psu.capacity := by
    norm_num [staleComputer, sampleComputer, Computer.make, cpuA, mbA, psuA]
  refine ⟨by decide, by decide, h3, by decide, ?_⟩
  rw [repair_noop_aux repairerA drawNone staleComputer (by decide) (by decide) h3 (by decide),
    Computer.deepcopy_eq]
  show Computer.componentPriceSum staleComputer ≠ staleComputer.price
  have hsum : Computer.componentPriceSum staleComputer = sampleComputer.price := by
    rw [show staleComputer = { sampleComputer with price := sampleComputer.price + 1 } from rfl,
      Computer.componentPriceSum_price]
    exact (Computer.make_price cpuA none ramA stoA mbA psuA coolA caseA 0 []).symm
  rw [hsum, show staleComputer.price = sampleComputer.price + 1 from rfl]
  intro h
  linarith

/-- The function `calculate_diversity`, re-expressed through the named maker-set
views (definitionally equal to the source transcription). -/
theorem DiversityCalculator.calculate_diversity_eq (D : DiversityCalculator)
    (population : List Computer) :
    D.calculate_diversity population =
      if population = [] then 0
      else
        (if 0 < D.cpuMakers.card then ((popCpuMakers population).card : ℚ) / D.cpuMakers.card else 0) * 0.2
        + (if 0 < D.gpuMakers.card then ((popGpuMakers population).card : ℚ) / D.gpuMakers.card else 0) * 0.2
        + (if 0 < D.ramMakers.card then ((popRamMakers population).card : ℚ) / D.ramMakers.card else 0) * 0.15
        + (if 0 < D.storageKeys.card then ((popStorageKeys population).card : ℚ) / D.storageKeys.card else 0) * 0.15
        + (if 0 < D.motherboardMakers.card then ((popMotherboardMakers population).card : ℚ) / D.motherboardMakers.card else 0) * 0.15
        + (if 0 < D.psuMakers.card then ((popPsuMakers population).card : ℚ) / D.psuMakers.card else 0) * 0.15 := rfl

/-- A guarded observed/catalog ratio lies in `[0, 1]` when the observed
set is no larger than the catalog set. -/
theorem guardedRatio_bounds (a b : ℕ) (hab : a ≤ b) :
    0 ≤ (if 0 < b then (a : ℚ) / b else 0) ∧ (if 0 < b then (a : ℚ) / b else 0) ≤ 1 := by
  by_cases hb : 0 < b
  · rw [if_pos hb]
    constructor
    · positivity
    · rw [div_le_one (by exact_mod_cast hb)]
      exact_mod_cast hab
  · rw [if_neg hb]
    norm_num

/-- A guarded ratio of equal positive cardinalities equals 1. -/
theorem guardedRatio_eq_one (a b : ℕ) (hab : a = b) (hb : 0 < b) :
    (if 0 < b then (a : ℚ) / b else 0) = 1 := by
  rw [if_pos hb, hab, div_self (by exact_mod_cast hb.ne' : (b : ℚ) ≠ 0)]

/-- C7 (amended): for every population whose component makers all
come from the catalog (true of every population the engine builds),
`calculate_diversity` lies in `[0, 1]` and is 0 on the empty
population; and it equals 1 when, in addition, each of the six
dimensions has at least one catalog maker and every catalog maker
appears in the population. -/
theorem claim_C7_diversity_bounds (D : DiversityCalculator) (population : List Computer)
    (hsub : D.populationFromCatalog population) :
    0 ≤ D.calculate_diversity population ∧
    D.calculate_diversity population ≤ 1 ∧
    (population = [] → D.calculate_diversity population = 0) ∧
    (D.dimsNonempty → D.catalogCovered population →
      D.calculate_diversity population = 1) := by
  obtain ⟨s1, s2, s3, s4, s5, s6⟩ := hsub
  rw [DiversityCalculator.calculate_diversity_eq]
  by_cases hp : population = []
  · subst hp
    refine ⟨by norm_num, by norm_num, fun _ => by norm_num, fun hdims hcov => ?_⟩
    exfalso
    obtain ⟨x, hx⟩ := hdims.1
    have hmem := hcov.1 hx
    simp [popCpuMakers] at hmem
  · rw [if_neg hp]
    have b1 := guardedRatio_bounds _ _ (Finset.card_le_card s1)
    have b2 := guardedRatio_bounds _ _ (Finset.card_le_card s2)
    have b3 := guardedRatio_bounds _ _ (Finset.card_le_card s3)
    have b4 := guardedRatio_bounds _ _ (Finset.card_le_card s4)
    have b5 := guardedRatio_bounds _ _ (Finset.card_le_card s5)
    have b6 := guardedRatio_bounds _ _ (Finset.card_le_card s6)
    refine ⟨by linarith [b1.1, b2.1, b3.1, b4.1, b5.1, b6.1],
      by linarith [b1.2, b2.2, b3.2, b4.2, b5.2, b6.2],
      fun h => absurd h hp, fun hdims hcov => ?_⟩
    obtain ⟨d1, d2, d3, d4, d5, d6⟩ := hdims
    obtain ⟨v1, v2, v3, v4, v5, v6⟩ := hcov
    rw [guardedRatio_eq_one _ _ (le_antisymm (Finset.card_le_card s1) (Finset.card_le_card v1)) (Finset.card_pos.mpr d1),
      guardedRatio_eq_one _ _ (le_antisymm (Finset.card_le_card s2) (Finset.card_le_card v2)) (Finset.card_pos.mpr d2),
      guardedRatio_eq_one _ _ (le_antisymm (Finset.card_le_card s3) (Finset.card_le_card v3)) (Finset.card_pos.mpr d3),
      guardedRatio_eq_one _ _ (le_antisymm (Finset.card_le_card s4) (Finset.card_le_card v4)) (Finset.card_pos.mpr d4),
      guardedRatio_eq_one _ _ (le_antisymm (Finset.card_le_card s5) (Finset.card_le_card v5)) (Finset.card_pos.mpr d5),
      guardedRatio_eq_one _ _ (le_antisymm (Finset.card_le_card s6) (Finset.card_le_card v6)) (Finset.card_pos.mpr d6)]
    norm_num

/-- Witness for C7 (amended): the singleton population `popA` drawn
from `catalogA` has diversity in `[0,1]`, and covering all of
`catalogA`'s makers it has diversity exactly 1. -/
theorem claim_C7_diversity_bounds_witness :
    0 ≤ catalogA.calculate_diversity popA ∧
    catalogA.calculate_diversity popA ≤ 1 ∧
    catalogA.calculate_diversity popA = 1 :=
  have h := claim_C7_diversity_bounds catalogA popA (by decide)
  ⟨h.1, h.2.1, h.2.2.2 (by decide) (by decide)⟩

/-- C7 (counterexample): a two-build population with makers outside
the one-maker catalog drives `calculate_diversity` to 2 > 1; and with
an empty GPU catalog, full coverage of every catalog maker still yields
diversity 0.8 ≠ 1. -/
theorem claim_C7_counterexample :
    1 < DiversityCalculator.calculate_diversity catalogA popXY ∧
    catalogNoGpu.catalogCovered popA ∧
    DiversityCalculator.calculate_diversity catalogNoGpu popA ≠ 1 := by
  refine ⟨?_, by decide, ?_⟩
  · rw [DiversityCalculator.calculate_diversity_eq,
      if_neg (by decide : ¬ popXY = [])]
    rw [show (popCpuMakers popXY).card = 2 from rfl,
      show (popGpuMakers popXY).card = 2 from rfl,
      show (popRamMakers popXY).card = 2 from rfl,
      show (popStorageKeys popXY).card = 2 from rfl,
      show (popMotherboardMakers popXY).card = 2 from rfl,
      show (popPsuMakers popXY).card = 2 from rfl,
      show catalogA.cpuMakers.card = 1 from rfl,
      show catalogA.gpuMakers.card = 1 from rfl,
      show catalogA.ramMakers.card = 1 from rfl,
      show catalogA.storageKeys.card = 1 from rfl,
      show catalogA.motherboardMakers.card = 1 from rfl,
      show catalogA.psuMakers.card = 1 from rfl]
    norm_num
  · rw [DiversityCalculator.calculate_diversity_eq,
      if_neg (by decide : ¬ popA = [])]
    rw [show (popCpuMakers popA).card = 1 from rfl,
      show (popGpuMakers popA).card = 1 from rfl,
      show (popRamMakers popA).card = 1 from rfl,
      show (popStorageKeys popA).card = 1 from rfl,
      show (popMotherboardMakers popA).card = 1 from rfl,
      show (popPsuMakers popA).card = 1 from rfl,
      show catalogNoGpu.cpuMakers.card = 1 from rfl,
      show catalogNoGpu.gpuMakers.card = 0 from rfl,
      show catalogNoGpu.ramMakers.card = 1 from rfl,
      show catalogNoGpu.storageKeys.card = 1 from rfl,
      show catalogNoGpu.motherboardMakers.card = 1 from rfl,
      show catalogNoGpu.psuMakers.card = 1 from rfl]
    norm_num

/-- On non-negative rationals Python's `int(…)` truncation agrees with
the floor. -/
theorem pyInt_eq_floor (q : ℚ) (h : 0 ≤ q) : pyInt q = ⌊q⌋ := by
  unfold pyInt
  rw [Int.tdiv_eq_ediv (Rat.num_nonneg.mpr h) (by positivity)]
  exact Rat.floor_def.symm

/-- The fill loop only appends: its result extends the accumulator. -/
theorem fillPopulation_prefix (N : ℕ) (offspring : OffspringOracle) :
    ∀ (fuel i : ℕ) (acc : List Computer),
      ∃ rest, ComputerGenerator.fillPopulation N offspring fuel i acc = acc ++ rest
  | 0, _, acc => ⟨[], by simp [ComputerGenerator.fillPopulation]⟩
  | fuel + 1, i, acc => by
    unfold ComputerGenerator.fillPopulation
    by_cases h : acc.length < N
    · rw [if_pos h]
      show ∃ rest, ComputerGenerator.fillPopulation N offspring fuel (i + 1)
          (if (acc ++ [(offspring i).1]).length < N
            then (acc ++ [(offspring i).1]) ++ [(offspring i).2]
            else acc ++ [(offspring i).1]) = acc ++ rest
      by_cases h2 : (acc ++ [(offspring i).1]).length < N
      · rw [if_pos h2]
        obtain ⟨r, hr⟩ := fillPopulation_prefix N offspring fuel (i + 1)
          ((acc ++ [(offspring i).1]) ++ [(offspring i).2])
        exact ⟨[(offspring i).1] ++ [(offspring i).2] ++ r,
          by rw [hr]; simp [List.append_assoc]⟩
      · rw [if_neg h2]
        obtain ⟨r, hr⟩ := fillPopulation_prefix N offspring fuel (i + 1)
          (acc ++ [(offspring i).1])
        exact ⟨[(offspring i).1] ++ r, by rw [hr]; simp [List.append_assoc]⟩
    · rw [if_neg h]
      exact ⟨[], by simp⟩

/-- C3 (amended): in every generation, the number of elite Builds
carried unchanged into the next population equals
`max(1, int(population_size * elitism_percentage))` — `int(…)`
truncates, it does not round — provided the population holds at least
that many Builds; and the next generation produced by the loop body
starts with exactly those elites. -/
theorem claim_C3_elite_count (cfg : GAConfig) (offspring : OffspringOracle)
    (pop : List Computer) (h : cfg.elite_count ≤ pop.length) :
    (ComputerGenerator.select_elite pop cfg.elite_count).length =
      max 1 (pyInt ((cfg.population_size : ℚ) * cfg.elitism_percentage)).toNat ∧
    ∃ rest, ComputerGenerator.advanceGeneration cfg offspring pop =
      ComputerGenerator.select_elite pop cfg.elite_count ++ rest := by
  constructor
  · unfold ComputerGenerator.select_elite
    rw [List.length_take, List.length_insertionSort]
    exact min_eq_left h
  · unfold ComputerGenerator.advanceGeneration
    exact fillPopulation_prefix cfg.population_size offspring cfg.population_size 0 _

/-- Witness for C3 (amended) at `cfgC3` (population 10, elitism 0.15)
and a population of ten builds. -/
theorem claim_C3_elite_count_witness :
    (ComputerGenerator.select_elite popTen cfgC3.elite_count).length =
      max 1 (pyInt ((cfgC3.population_size : ℚ) * cfgC3.elitism_percentage)).toNat :=
  (claim_C3_elite_count cfgC3 (fun _ => (sampleComputer, sampleComputer)) popTen
    (by
      have : cfgC3.elite_count = 1 := by
        unfold GAConfig.elite_count
        rw [show ((cfgC3.population_size : ℚ) * cfgC3.elitism_percentage) = 3/2 by
          norm_num [cfgC3]]
        rw [pyInt_eq_floor _ (by norm_num)]
        norm_num
      rw [this]
      norm_num [popTen])).1

/-- C3 (counterexample): with population size 10 and elitism
percentage 0.15 the loop carries `max(1, int(1.5)) = 1` elite, while
the claim's formula `max(1, round(1.5))` gives 2 (Python rounds half to
even: `round(1.5) = 2`). -/
theorem claim_C3_counterexample :
    (ComputerGenerator.select_elite popTen cfgC3.elite_count).length = 1 ∧
    max 1 (pyRound ((cfgC3.population_size : ℚ) * cfgC3.elitism_percentage)) = 2 := by
  have h32 : ((cfgC3.population_size : ℚ) * cfgC3.elitism_percentage) = 3/2 := by
    norm_num [cfgC3]
  have hcount : cfgC3.elite_count = 1 := by
    unfold GAConfig.elite_count
    rw [h32, pyInt_eq_floor _ (by norm_num)]
    norm_num
  constructor
  · unfold ComputerGenerator.select_elite
    rw [List.length_take, List.length_insertionSort, hcount]
    norm_num [popTen]
  · rw [h32]
    unfold pyRound
    norm_num

/-- Every element of `c :: cs` has fitness at most that of the
`max(..., key=fitness)` fold. -/
theorem foldl_maxBy_ge (cs : List Computer) (c : Computer) :
    ∀ x ∈ c :: cs,
      x.fitness ≤ (cs.foldl (fun acc y => if y.fitness > acc.fitness then y else acc) c).fitness := by
  induction cs generalizing c with
  | nil =>
    intro x hx
    rw [List.mem_singleton] at hx
    subst hx
    exact le_refl _
  | cons d cs ih =>
    intro x hx
    have hstep : c.fitness ≤ (if d.fitness > c.fitness then d else c).fitness ∧
        d.fitness ≤ (if d.fitness > c.fitness then d else c).fitness := by
      by_cases hd : d.fitness > c.fitness
      · rw [if_pos hd]
        exact ⟨le_of_lt hd, le_refl _⟩
      · rw [if_neg hd]
        exact ⟨le_refl _, not_lt.mp hd⟩
    have htail := ih (if d.fitness > c.fitness then d else c)
    rw [List.foldl_cons]
    rcases List.mem_cons.mp hx with rfl | hx'
    · exact le_trans hstep.1 (htail _ (List.mem_cons_self _ _))
    · rcases List.mem_cons.mp hx' with rfl | hx''
      · exact le_trans hstep.2 (htail _ (List.mem_cons_self _ _))
      · exact htail _ (List.mem_cons_of_mem _ hx'')

/-- On a list containing `b`, `maxByFitness` returns a computer whose
fitness dominates `b`'s. -/
theorem maxByFitness_spec (pop : List Computer) (b : Computer) (hb : b ∈ pop) :
    ∃ m, maxByFitness pop = some m ∧ b.fitness ≤ m.fitness := by
  cases pop with
  | nil => cases hb
  | cons c cs => exact ⟨_, rfl, foldl_maxBy_ge cs c b hb⟩

/-- The elites selected by `select_elite` contain a computer whose
fitness dominates the whole population (the head of the descending
stable sort), as soon as the population is non-empty and at least one
elite is kept. -/
theorem select_elite_max (pop : List Computer) (count : ℕ) (hp : pop ≠ [])
    (hc : 1 ≤ count) :
    ∃ e ∈ ComputerGenerator.select_elite pop count, ∀ b ∈ pop, b.fitness ≤ e.fitness := by
  unfold ComputerGenerator.select_elite
  haveI : IsTotal Computer (fun a b : Computer => b.fitness ≤ a.fitness) :=
    ⟨fun a b => le_total b.fitness a.fitness⟩
  haveI : IsTrans Computer (fun a b : Computer => b.fitness ≤ a.fitness) :=
    ⟨fun _ _ _ hab hbc => le_trans hbc hab⟩
  have hs := List.sorted_insertionSort (fun a b : Computer => b.fitness ≤ a.fitness) pop
  have hperm := List.perm_insertionSort (fun a b : Computer => b.fitness ≤ a.fitness) pop
  cases hsort : pop.insertionSort (fun a b : Computer => b.fitness ≤ a.fitness) with
  | nil =>
    exfalso
    apply hp
    have hlen := hperm.length_eq
    rw [hsort] at hlen
    exact List.length_eq_zero.mp hlen.symm
  | cons h t =>
    rw [hsort] at hs hperm
    refine ⟨h, ?_, ?_⟩
    · cases count with
      | zero => omega
      | succ n =>
        rw [List.take_succ_cons]
        exact List.mem_cons_self _ _
    · intro b hb
      rcases List.mem_cons.mp (hperm.mem_iff.mpr hb) with rfl | hbt
      · exact le_refl _
      · exact List.rel_of_sorted_cons hs b hbt

/-- The elite count is always at least 1. -/
theorem GAConfig.one_le_elite_count (cfg : GAConfig) : 1 ≤ cfg.elite_count :=
  le_max_left 1 _

/-- One generation step keeps a computer dominating the previous
population (the top elite is carried over unchanged). -/
theorem advanceGeneration_max (cfg : GAConfig) (offspring : OffspringOracle)
    (pop : List Computer) (hp : pop ≠ []) :
    ∃ e ∈ ComputerGenerator.advanceGeneration cfg offspring pop,
      ∀ b ∈ pop, b.fitness ≤ e.fitness := by
  obtain ⟨e, he, hmax⟩ := select_elite_max pop cfg.elite_count hp cfg.one_le_elite_count
  obtain ⟨rest, hrest⟩ := fillPopulation_prefix cfg.population_size offspring
    cfg.population_size 0 (ComputerGenerator.select_elite pop cfg.elite_count)
  refine ⟨e, ?_, hmax⟩
  show e ∈ ComputerGenerator.fillPopulation cfg.population_size offspring
    cfg.population_size 0 (ComputerGenerator.select_elite pop cfg.elite_count)
  rw [hrest]
  exact List.mem_append_left _ he

/-- Through any number of loop iterations, every computer of the
starting population is fitness-dominated by some member of the final
population. -/
theorem runLoop_max (cfg : GAConfig) (offspring : ℕ → OffspringOracle) :
    ∀ (fuel g : ℕ) (st : RunState), st.population ≠ [] →
      ∀ b ∈ st.population,
        ∃ y ∈ (ComputerGenerator.runLoop cfg offspring fuel g st).1.population,
          b.fitness ≤ y.fitness
  | 0, _, _, _, b, hb => ⟨b, hb, le_refl _⟩
  | fuel + 1, g, st, hp, b, hb => by
    obtain ⟨e, he, hmax⟩ := advanceGeneration_max cfg (offspring g) st.population hp
    have he' : e ∈ (ComputerGenerator.nextState cfg offspring g st).population := he
    have hne : (ComputerGenerator.nextState cfg offspring g st).population ≠ [] :=
      List.ne_nil_of_mem he'
    unfold ComputerGenerator.runLoop
    by_cases hstop : ComputerGenerator.earlyStopCheck g
        (ComputerGenerator.nextState cfg offspring g st).best_cases = true
    · rw [if_pos hstop]
      exact ⟨e, he', hmax b hb⟩
    · rw [if_neg hstop]
      obtain ⟨y, hy, hey⟩ := runLoop_max cfg offspring fuel (g + 1)
        (ComputerGenerator.nextState cfg offspring g st) hne e he'
      exact ⟨y, hy, le_trans (hmax b hb) hey⟩

/-- C2: for every run with at least one generation and a non-empty
initial population, and for every outcome of the random offspring
pipeline, the best Build returned by `run` has fitness at least that
of every Build of generation 0 — the top-fitness elite of each
generation is carried unchanged into the next. -/
theorem claim_C2_run_best_dominates_gen0 (cfg : GAConfig)
    (offspring : ℕ → OffspringOracle) (initial_population : List Computer)
    (h0 : initial_population ≠ []) (hg : 1 ≤ cfg.generations) :
    ∀ b ∈ initial_population, ∃ best,
      (ComputerGenerator.run cfg offspring initial_population).1 = some best ∧
      b.fitness ≤ best.fitness := by
  intro b hb
  obtain ⟨y, hy, hby⟩ := runLoop_max cfg offspring cfg.generations 0
    ⟨initial_population, []⟩ h0 b hb
  obtain ⟨m, hm, hym⟩ := maxByFitness_spec _ y hy
  exact ⟨m, hm, le_trans hby hym⟩

/-- Witness for C2: a 1-generation run over four copies of
`sampleComputer` with the constant offspring oracle. -/
theorem claim_C2_run_best_dominates_gen0_witness :
    ∃ best, (ComputerGenerator.run cfgG1 offspringConst popFour).1 = some best ∧
      sampleComputer.fitness ≤ best.fitness :=
  claim_C2_run_best_dominates_gen0 cfgG1 offspringConst popFour
    (by decide) (by decide) sampleComputer (by simp [popFour])

/-- Unfolding equation for one loop iteration. -/
theorem runLoop_succ (cfg : GAConfig) (offspring : ℕ → OffspringOracle)
    (fuel g : ℕ) (st : RunState) :
    ComputerGenerator.runLoop cfg offspring (fuel + 1) g st =
      if ComputerGenerator.earlyStopCheck g
          (ComputerGenerator.nextState cfg offspring g st).best_cases
      then (ComputerGenerator.nextState cfg offspring g st, g + 1)
      else ComputerGenerator.runLoop cfg offspring fuel (g + 1)
        (ComputerGenerator.nextState cfg offspring g st) := rfl

/-- Unfolding equation for the loop trace. -/
theorem stateAt_succ (cfg : GAConfig) (offspring : ℕ → OffspringOracle)
    (pop0 : List Computer) (g : ℕ) :
    ComputerGenerator.stateAt cfg offspring pop0 (g + 1) =
      ComputerGenerator.nextState cfg offspring g
        (ComputerGenerator.stateAt cfg offspring pop0 g) := rfl

/-- The early-stop test can never fire during the first 21 generations
(`generation > 20` fails for 0-based `generation ≤ 20`). -/
theorem earlyStopCheck_le_20 (g : ℕ) (hg : g ≤ 20) (bc : List Computer) :
    ComputerGenerator.earlyStopCheck g bc = false := by
  unfold ComputerGenerator.earlyStopCheck
  rw [decide_eq_false (by omega : ¬ g > 20)]
  rfl

/-- If the condition never fires in the next `fuel` generations, the
loop runs them all. -/
theorem runLoop_no_stop (cfg : GAConfig) (offspring : ℕ → OffspringOracle)
    (pop0 : List Computer) :
    ∀ (fuel g : ℕ),
      (∀ k, g ≤ k → k < g + fuel → ¬ ComputerGenerator.stopsAt cfg offspring pop0 k) →
      ComputerGenerator.runLoop cfg offspring fuel g
          (ComputerGenerator.stateAt cfg offspring pop0 g) =
        (ComputerGenerator.stateAt cfg offspring pop0 (g + fuel), g + fuel)
  | 0, g, _ => by simp [ComputerGenerator.runLoop]
  | fuel + 1, g, h => by
    rw [runLoop_succ, ← stateAt_succ cfg offspring pop0 g]
    have hcond : ¬ (ComputerGenerator.earlyStopCheck g
        (ComputerGenerator.stateAt cfg offspring pop0 (g + 1)).best_cases = true) :=
      h g le_rfl (by omega)
    rw [if_neg hcond]
    have hrec := runLoop_no_stop cfg offspring pop0 fuel (g + 1)
      (fun k hk1 hk2 => h k (by omega) (by omega))
    rw [show g + (fuel + 1) = (g + 1) + fuel from by omega]
    exact hrec

/-- If the condition fires first at generation `g0`, the loop breaks
there, reporting `g0 + 1` completed generations. -/
theorem runLoop_first_stop (cfg : GAConfig) (offspring : ℕ → OffspringOracle)
    (pop0 : List Computer) :
    ∀ (fuel g g0 : ℕ), g ≤ g0 → g0 < g + fuel →
      ComputerGenerator.stopsAt cfg offspring pop0 g0 →
      (∀ k, g ≤ k → k < g0 → ¬ ComputerGenerator.stopsAt cfg offspring pop0 k) →
      ComputerGenerator.runLoop cfg offspring fuel g
          (ComputerGenerator.stateAt cfg offspring pop0 g) =
        (ComputerGenerator.stateAt cfg offspring pop0 (g0 + 1), g0 + 1)
  | 0, g, g0, hg, hlt, _, _ => by omega
  | fuel + 1, g, g0, hg, hlt, hstop, hno => by
    rw [runLoop_succ, ← stateAt_succ cfg offspring pop0 g]
    rcases eq_or_lt_of_le hg with rfl | hglt
    · have hstop' : ComputerGenerator.earlyStopCheck g
          (ComputerGenerator.stateAt cfg offspring pop0 (g + 1)).best_cases = true := hstop
      rw [if_pos hstop']
    · have hcond : ¬ (ComputerGenerator.earlyStopCheck g
          (ComputerGenerator.stateAt cfg offspring pop0 (g + 1)).best_cases = true) :=
        hno g le_rfl hglt
      rw [if_neg hcond]
      exact runLoop_first_stop cfg offspring pop0 fuel (g + 1) g0 hglt (by omega) hstop
        (fun k hk1 hk2 => hno k (by omega) hk2)

/-- On a non-empty list `maxByFitness` is `some`. -/
theorem maxByFitness_ne_nil (pop : List Computer) (hp : pop ≠ []) :
    ∃ m, maxByFitness pop = some m := by
  cases pop with
  | nil => exact absurd rfl hp
  | cons c cs => exact ⟨_, rfl⟩

/-- The `max(..., key=fitness)` fold returns an element of the list. -/
theorem foldl_maxBy_mem (cs : List Computer) (c : Computer) :
    cs.foldl (fun acc y => if y.fitness > acc.fitness then y else acc) c ∈ c :: cs := by
  induction cs generalizing c with
  | nil => exact List.mem_singleton.mpr rfl
  | cons d cs ih =>
    rw [List.foldl_cons]
    have := ih (if d.fitness > c.fitness then d else c)
    rcases List.mem_cons.mp this with heq | hmem
    · rw [heq]
      by_cases hd : d.fitness > c.fitness
      · rw [if_pos hd]
        exact List.mem_cons_of_mem _ (List.mem_cons_self _ _)
      · rw [if_neg hd]
        exact List.mem_cons_self _ _
    · exact List.mem_cons_of_mem _ (List.mem_cons_of_mem _ hmem)

/-- The result of `maxByFitness` is an element of the list. -/
theorem maxByFitness_mem (pop : List Computer) (m : Computer)
    (hm : maxByFitness pop = some m) : m ∈ pop := by
  cases pop with
  | nil => cases hm
  | cons c cs =>
    have : m = cs.foldl (fun acc y => if y.fitness > acc.fitness then y else acc) c :=
      (Option.some_injective _ hm).symm
    rw [this]
    exact foldl_maxBy_mem cs c

/-- Elites are members of the population they were selected from. -/
theorem select_elite_mem (pop : List Computer) (count : ℕ) (x : Computer)
    (hx : x ∈ ComputerGenerator.select_elite pop count) : x ∈ pop := by
  unfold ComputerGenerator.select_elite at hx
  exact (List.mem_insertionSort _).mp (List.mem_of_mem_take hx)

/-- Every member of the fill-loop output is either from the seed list
or one of the oracle's children. -/
theorem fillPopulation_mem (N : ℕ) (offspring : OffspringOracle) :
    ∀ (fuel i : ℕ) (acc : List Computer) (x : Computer),
      x ∈ ComputerGenerator.fillPopulation N offspring fuel i acc →
      x ∈ acc ∨ ∃ j, x = (offspring j).1 ∨ x = (offspring j).2
  | 0, i, acc, x, hx => Or.inl hx
  | fuel + 1, i, acc, x, hx => by
    unfold ComputerGenerator.fillPopulation at hx
    by_cases h : acc.length < N
    · rw [if_pos h] at hx
      have hx' : x ∈ ComputerGenerator.fillPopulation N offspring fuel (i + 1)
          (if (acc ++ [(offspring i).1]).length < N
            then (acc ++ [(offspring i).1]) ++ [(offspring i).2]
            else acc ++ [(offspring i).1]) := hx
      rcases fillPopulation_mem N offspring fuel (i + 1) _ x hx' with hmem | hoff
      · by_cases h2 : (acc ++ [(offspring i).1]).length < N
        · rw [if_pos h2] at hmem
          rcases List.mem_append.mp hmem with hmem' | hc2
          · rcases List.mem_append.mp hmem' with ha | hc1
            · exact Or.inl ha
            · exact Or.inr ⟨i, Or.inl (List.mem_singleton.mp hc1)⟩
          · exact Or.inr ⟨i, Or.inr (List.mem_singleton.mp hc2)⟩
        · rw [if_neg h2] at hmem
          rcases List.mem_append.mp hmem with ha | hc1
          · exact Or.inl ha
          · exact Or.inr ⟨i, Or.inl (List.mem_singleton.mp hc1)⟩
      · exact Or.inr hoff
    · rw [if_neg h] at hx
      exact Or.inl hx

/-- With a non-empty initial population, every generation's population
is non-empty (the elites are always non-empty). -/
theorem stateAt_population_ne_nil (cfg : GAConfig) (offspring : ℕ → OffspringOracle)
    (pop0 : List Computer) (h0 : pop0 ≠ []) (g : ℕ) :
    (ComputerGenerator.stateAt cfg offspring pop0 g).population ≠ [] := by
  induction g with
  | zero => exact h0
  | succ g ih =>
    obtain ⟨e, he, _⟩ := advanceGeneration_max cfg (offspring g)
      (ComputerGenerator.stateAt cfg offspring pop0 g).population ih
    exact List.ne_nil_of_mem (show e ∈ (ComputerGenerator.stateAt cfg offspring pop0
      (g + 1)).population from he)

/-- With a non-empty initial population, the best-case history holds
one entry per completed generation. -/
theorem stateAt_best_cases_length (cfg : GAConfig) (offspring : ℕ → OffspringOracle)
    (pop0 : List Computer) (h0 : pop0 ≠ []) (g : ℕ) :
    (ComputerGenerator.stateAt cfg offspring pop0 g).best_cases.length = g := by
  induction g with
  | zero => rfl
  | succ g ih =>
    obtain ⟨m, hm⟩ := maxByFitness_ne_nil _ (stateAt_population_ne_nil cfg offspring pop0 h0 (g + 1))
    show (StatisticsTracker.update_best_cases
      (ComputerGenerator.stateAt cfg offspring pop0 g).best_cases
      (ComputerGenerator.stateAt cfg offspring pop0 (g + 1)).population).length = g + 1
    unfold StatisticsTracker.update_best_cases
    rw [hm]
    simp [ih]

/-- If the whole initial population and all oracle children share one
fitness value, so do all populations and all best-case entries of the
trace. -/
theorem stateAt_const_fitness (cfg : GAConfig) (offspring : ℕ → OffspringOracle)
    (pop0 : List Computer) (v : ℚ)
    (h0 : ∀ c ∈ pop0, c.fitness = v)
    (hoff : ∀ g i, ((offspring g i).1.fitness = v ∧ (offspring g i).2.fitness = v)) :
    ∀ g, (∀ c ∈ (ComputerGenerator.stateAt cfg offspring pop0 g).population, c.fitness = v) ∧
      (∀ x ∈ (ComputerGenerator.stateAt cfg offspring pop0 g).best_cases, x.fitness = v) := by
  intro g
  induction g with
  | zero => exact ⟨h0, fun x hx => absurd hx (List.not_mem_nil x)⟩
  | succ g ih =>
    have hpop : ∀ c ∈ (ComputerGenerator.stateAt cfg offspring pop0 (g + 1)).population,
        c.fitness = v := by
      intro c hc
      have hc' : c ∈ ComputerGenerator.fillPopulation cfg.population_size (offspring g)
          cfg.population_size 0
          (ComputerGenerator.select_elite
            (ComputerGenerator.stateAt cfg offspring pop0 g).population cfg.elite_count) := hc
      rcases fillPopulation_mem _ _ _ _ _ _ hc' with helite | ⟨j, hj⟩
      · exact ih.1 c (select_elite_mem _ _ c helite)
      · rcases hj with hj1 | hj2
        · rw [hj1]; exact (hoff g j).1
        · rw [hj2]; exact (hoff g j).2
    refine ⟨hpop, ?_⟩
    intro x hx
    have hx' : x ∈ StatisticsTracker.update_best_cases
        (ComputerGenerator.stateAt cfg offspring pop0 g).best_cases
        (ComputerGenerator.stateAt cfg offspring pop0 (g + 1)).population := hx
    unfold StatisticsTracker.update_best_cases at hx'
    cases hm : maxByFitness (ComputerGenerator.stateAt cfg offspring pop0 (g + 1)).population with
    | none => rw [hm] at hx'; exact ih.2 x hx'
    | some m =>
      rw [hm] at hx'
      rcases List.mem_append.mp hx' with hold | hnew
      · exact ih.2 x hold
      · rw [List.mem_singleton.mp hnew]
        exact hpop m (maxByFitness_mem _ m hm)

/-- C5 (amended): the loop breaks at the end of 0-based generation
`g` exactly when `g > 20`, the best-case history has ≥ 20 entries and
`|best[-1].fitness − best[-20].fitness| < 0.001` (the condition
`stopsAt`): if the condition never fires the loop completes all
`generations` iterations, if it first fires at `g0` the loop reports
`g0 + 1` completed generations, and it can never fire during the first
21 generations; consequently a run with a constant best-fitness
history stops after exactly 22 completed generations — before
completing all iterations — whenever `generations ≥ 23` (and, as the
counterexample shows, not for `generations ≤ 22`). -/
theorem claim_C5_early_stop (cfg : GAConfig) (offspring : ℕ → OffspringOracle)
    (pop0 : List Computer) :
    ((∀ g, g < cfg.generations → ¬ ComputerGenerator.stopsAt cfg offspring pop0 g) →
      ComputerGenerator.runLoop cfg offspring cfg.generations 0 ⟨pop0, []⟩ =
        (ComputerGenerator.stateAt cfg offspring pop0 cfg.generations, cfg.generations)) ∧
    (∀ g0, g0 < cfg.generations → ComputerGenerator.stopsAt cfg offspring pop0 g0 →
      (∀ k, k < g0 → ¬ ComputerGenerator.stopsAt cfg offspring pop0 k) →
      ComputerGenerator.runLoop cfg offspring cfg.generations 0 ⟨pop0, []⟩ =
        (ComputerGenerator.stateAt cfg offspring pop0 (g0 + 1), g0 + 1)) ∧
    (∀ g, g ≤ 20 → ¬ ComputerGenerator.stopsAt cfg offspring pop0 g) ∧
    (pop0 ≠ [] → 23 ≤ cfg.generations →
      (∀ x ∈ (ComputerGenerator.stateAt cfg offspring pop0 22).best_cases,
        ∀ y ∈ (ComputerGenerator.stateAt cfg offspring pop0 22).best_cases,
          x.fitness = y.fitness) →
      (ComputerGenerator.runLoop cfg offspring cfg.generations 0 ⟨pop0, []⟩).2 = 22 ∧
        22 < cfg.generations) := by
  have hle20 : ∀ g, g ≤ 20 → ¬ ComputerGenerator.stopsAt cfg offspring pop0 g := by
    intro g hg
    unfold ComputerGenerator.stopsAt
    rw [earlyStopCheck_le_20 g hg]
    simp
  refine ⟨?_, ?_, hle20, ?_⟩
  · intro h
    have hrun := runLoop_no_stop cfg offspring pop0 cfg.generations 0
      (fun k _ hk2 => h k (by omega))
    rw [Nat.zero_add] at hrun
    exact hrun
  · intro g0 hg0 hstop hno
    have hrun := runLoop_first_stop cfg offspring pop0 cfg.generations 0 g0
      (Nat.zero_le g0) (by omega) hstop (fun k _ hk2 => hno k hk2)
    exact hrun
  · intro h0 hgen hconst
    have hlen := stateAt_best_cases_length cfg offspring pop0 h0 22
    have h21 : (21 : ℕ) <
        (ComputerGenerator.stateAt cfg offspring pop0 22).best_cases.length := by omega
    have h2 : (2 : ℕ) <
        (ComputerGenerator.stateAt cfg offspring pop0 22).best_cases.length := by omega
    have hstop : ComputerGenerator.stopsAt cfg offspring pop0 21 := by
      unfold ComputerGenerator.stopsAt ComputerGenerator.earlyStopCheck
      rw [show (21 : ℕ) + 1 = 22 from rfl, hlen]
      rw [show (22 : ℕ) - 1 = 21 from rfl, show (22 : ℕ) - 20 = 2 from rfl]
      rw [List.get?_eq_get h21, List.get?_eq_get h2]
      show (decide (21 > 20) && decide (22 ≥ 20) &&
        decide (|((ComputerGenerator.stateAt cfg offspring pop0 22).best_cases.get
            ⟨21, h21⟩).fitness -
          ((ComputerGenerator.stateAt cfg offspring pop0 22).best_cases.get
            ⟨2, h2⟩).fitness| < 0.001)) = true
      simp only [Bool.and_eq_true, decide_eq_true_eq]
      refine ⟨⟨by omega, by omega⟩, ?_⟩
      rw [hconst _ (List.get_mem _ _ _) _ (List.get_mem _ _ _), sub_self, abs_zero]
      norm_num
    have hrun := runLoop_first_stop cfg offspring pop0 cfg.generations 0 21
      (Nat.zero_le 21) (by omega) hstop (fun k _ hk2 => hle20 k (by omega))
    have hrun' : ComputerGenerator.runLoop cfg offspring cfg.generations 0 ⟨pop0, []⟩ =
        (ComputerGenerator.stateAt cfg offspring pop0 (21 + 1), 21 + 1) := hrun
    constructor
    · rw [hrun']
    · omega

/-- Witness for C5 (amended): in a concrete 21-generation run the
early-stop condition cannot fire at generation 0. -/
theorem claim_C5_early_stop_witness :
    ¬ ComputerGenerator.stopsAt cfgG21 offspringConst popFour 0 :=
  (claim_C5_early_stop cfgG21 offspringConst popFour).2.2.1 0 (by omega)

/-- C5 (counterexample): with `generations = 21` (more than 20),
four identical zero-fitness builds and an oracle that always returns
copies of the same build, the best-fitness history is constant over
all 21 > 20 recorded generations, yet the loop completes all 21
iterations — it does not terminate early, contradicting the claim's
"constant for the last 20 of more than 20 generations implies
termination before `generations` iterations". -/
theorem claim_C5_counterexample :
    cfgG21.generations = 21 ∧
    (ComputerGenerator.run cfgG21 offspringConst popFour).2.1.best_cases.length = 21 ∧
    (∀ x ∈ (ComputerGenerator.run cfgG21 offspringConst popFour).2.1.best_cases,
      ∀ y ∈ (ComputerGenerator.run cfgG21 offspringConst popFour).2.1.best_cases,
        x.fitness = y.fitness) ∧
    (ComputerGenerator.run cfgG21 offspringConst popFour).2.2 = cfgG21.generations := by
  have h0 : popFour ≠ [] := by decide
  have hns : ∀ k, 0 ≤ k → k < 0 + 21 →
      ¬ ComputerGenerator.stopsAt cfgG21 offspringConst popFour k := by
    intro k _ hk
    unfold ComputerGenerator.stopsAt
    rw [earlyStopCheck_le_20 k (by omega)]
    simp
  have hrun := runLoop_no_stop cfgG21 offspringConst popFour 21 0 hns
  rw [Nat.zero_add] at hrun
  have hrun' : ComputerGenerator.runLoop cfgG21 offspringConst cfgG21.generations 0
      ⟨popFour, []⟩ =
      (ComputerGenerator.stateAt cfgG21 offspringConst popFour 21, 21) := hrun
  have hst : (ComputerGenerator.run cfgG21 offspringConst popFour).2.1 =
      ComputerGenerator.stateAt cfgG21 offspringConst popFour 21 := by
    show (ComputerGenerator.runLoop cfgG21 offspringConst cfgG21.generations 0
      ⟨popFour, []⟩).1 = _
    rw [hrun']
  have hcompleted : (ComputerGenerator.run cfgG21 offspringConst popFour).2.2 = 21 := by
    show (ComputerGenerator.runLoop cfgG21 offspringConst cfgG21.generations 0
      ⟨popFour, []⟩).2 = 21
    rw [hrun']
  have hconst := stateAt_const_fitness cfgG21 offspringConst popFour 0
    (fun c hc => by rw [List.eq_of_mem_replicate hc]; rfl)
    (fun _ _ => ⟨rfl, rfl⟩) 21
  refine ⟨rfl, ?_, ?_, hcompleted⟩
  · rw [hst]
    exact stateAt_best_cases_length cfgG21 offspringConst popFour h0 21
  · rw [hst]
    intro x hx y hy
    rw [hconst.2 x hx, hconst.2 y hy]
